import Mathlib

/-!
Verification of the statistics/report core of `SCRIPT_stock_screening.py`.

Modelling conventions (shallow embedding):
  * Numeric values are exact rationals (`ℚ`); every Python float is a
    rational number, and the claims under study are about the exact
    arithmetic the source expresses, not float error.
  * The two statistics whose value is irrational — `calculate_cagr`
    (float `**`) and `calculate_cv` (square root) — land in `ℝ`.
  * Date strings `"YYYY-MM-DD"` are modelled as the natural number
    `YYYYMMDD`; this is order-isomorphic to the lexicographic string
    order the script sorts by, and the year prefix `date_str[:4]`
    becomes `d / 10000`, the month `date_str[5:7]` becomes
    `d / 100 % 100`.  A date field that is missing (Python `''` or
    `None`) is `Option.none`.
  * Payload numeric fields arrive already parsed: `safe_float` maps a
    missing, `'None'` or unparsable field to `None`, so a field is
    `Option ℚ` here.
  * Python `round` (and the rounding done by `'%.2f'` formatting)
    rounds ties to even, embodied by `rndHalfEven` below.
-/

/-- Round half to even at integer precision: Python's `round(x)`. -/
def rndHalfEven (q : ℚ) : ℤ :=
  let f := ⌊q⌋
  let r := q - (f : ℚ)
  if r < 1 / 2 then f
  else if 1 / 2 < r then f + 1
  else if f % 2 = 0 then f else f + 1

/-- Python's `round(x, n)` for rationals. -/
def pyRound (n : ℕ) (q : ℚ) : ℚ := (rndHalfEven (q * 10 ^ n) : ℚ) / 10 ^ n

/-- Round half to even over the reals, for the two irrational-valued
statistics (CAGR, CV). -/
noncomputable def rndHalfEvenR (x : ℝ) : ℤ :=
  let f := ⌊x⌋
  let r := x - (f : ℝ)
  if r < 1 / 2 then f
  else if 1 / 2 < r then f + 1
  else if f % 2 = 0 then f else f + 1

/-- Python's `round(x, n)` over the reals. -/
noncomputable def pyRoundR (n : ℕ) (x : ℝ) : ℝ := (rndHalfEvenR (x * 10 ^ n) : ℝ) / 10 ^ n

/-- `safe_divide(num, denom)` (default `None`): `None` when either input is
`None` or the denominator is zero. -/
def safe_divide (num denom : Option ℚ) : Option ℚ :=
  match num, denom with
  | some n, some d => if d = 0 then none else some (n / d)
  | _, _ => none

/-- `pct(num, denom)` (default `None`): `(num / denom) * 100` rounded to two
decimals. -/
def pct (num denom : Option ℚ) : Option ℚ :=
  match safe_divide num denom with
  | some r => some (pyRound 2 (r * 100))
  | none => none

/-- `calculate_cagr(values)`: the source filters the `None`s, requires at
least two remaining values with the first and last strictly positive, and
returns `(last/first) ** (1/years) - 1` as a percentage rounded to two
decimals, with `years = len(clean) - 1`.  Float `**` is real
exponentiation (`Real.rpow`). -/
noncomputable def calculate_cagr (values : List (Option ℚ)) : Option ℝ :=
  let clean := values.filterMap id
  if clean.length < 2 ∨ clean.headD 0 ≤ 0 ∨ clean.getLastD 0 ≤ 0 then none
  else
    let years : ℕ := clean.length - 1
    some (pyRoundR 2 (((((clean.getLastD 0 : ℚ) : ℝ) / ((clean.headD 0 : ℚ) : ℝ)) ^
      ((1 : ℝ) / (years : ℝ)) - 1) * 100))

/-- `calculate_avg(values)`: mean of the non-`None` values rounded to two
decimals, `None` when none remain. -/
def calculate_avg (values : List (Option ℚ)) : Option ℚ :=
  let clean := values.filterMap id
  if clean = [] then none else some (pyRound 2 (clean.sum / (clean.length : ℚ)))

/-- `calculate_cv(values)`: population standard deviation over |mean| as a
percentage, rounded; `None` for fewer than two clean values or mean zero. -/
noncomputable def calculate_cv (values : List (Option ℚ)) : Option ℝ :=
  let clean := values.filterMap id
  if clean.length < 2 then none
  else
    let avg := clean.sum / (clean.length : ℚ)
    if avg = 0 then none
    else
      let variance := ((clean.map fun x => (x - avg) ^ 2).sum) / (clean.length : ℚ)
      some (pyRoundR 2 ((Real.sqrt (variance : ℝ) / |(avg : ℝ)|) * 100))

/-- The pairs `(original index, value)` of the non-`None` entries: the
source idiom `[(i, v) for i, v in enumerate(values) if v is not None]`
used by `calculate_slope` and `detect_outliers`. -/
def cleanEnum (values : List (Option ℚ)) : List (ℕ × ℚ) :=
  values.enum.filterMap fun p => p.2.map fun v => (p.1, v)

/-- `calculate_slope(values)`: ordinary least-squares slope of value against
original (pre-filter) index, rounded to two decimals. -/
def calculate_slope (values : List (Option ℚ)) : Option ℚ :=
  let clean := cleanEnum values
  if clean.length < 2 then none
  else
    let n : ℚ := (clean.length : ℚ)
    let sum_x : ℚ := (clean.map fun p => (p.1 : ℚ)).sum
    let sum_y : ℚ := (clean.map fun p => p.2).sum
    let sum_xy : ℚ := (clean.map fun p => (p.1 : ℚ) * p.2).sum
    let sum_x2 : ℚ := (clean.map fun p => (p.1 : ℚ) * (p.1 : ℚ)).sum
    let denominator := n * sum_x2 - sum_x * sum_x
    if denominator = 0 then none
    else some (pyRound 2 ((n * sum_xy - sum_x * sum_y) / denominator))

/-- `calculate_recent_delta(values)`: last two clean values' absolute and
percent change. -/
structure RecentDelta where
  absolute : Option ℚ
  percent : Option ℚ
deriving Repr, DecidableEq

def calculate_recent_delta (values : List (Option ℚ)) : RecentDelta :=
  let clean := values.filterMap id
  if clean.length < 2 then ⟨none, none⟩
  else
    let recent := clean.getLastD 0
    let prior := clean.dropLast.getLastD 0
    { absolute := some (pyRound 2 (recent - prior))
      percent :=
        if prior ≠ 0 then some (pyRound 2 ((recent - prior) / |prior| * 100)) else none }

/-- `detect_outliers(values)`.  The source keeps the enumerated pairs whose
value satisfies `v < mean - 2 * std_dev or v > mean + 2 * std_dev` with
`std_dev = variance ** 0.5`; over exact arithmetic that comparison is
equivalent to `(v - mean) ^ 2 > 4 * variance` (square both sides of
`|v - mean| > 2 * √variance`, all quantities non-negative), the form used
here so the function stays inside `ℚ`.  The collected `i` are the
enumeration indices of the original, unfiltered sequence. -/
def detect_outliers (values : List (Option ℚ)) : List ℕ :=
  let clean := cleanEnum values
  if clean.length < 3 then []
  else
    let vals := clean.map fun p => p.2
    let mean := vals.sum / (vals.length : ℚ)
    let variance := ((vals.map fun x => (x - mean) ^ 2).sum) / (vals.length : ℚ)
    (clean.filter fun p => 4 * variance < (p.2 - mean) ^ 2).map fun p => p.1

/-- The reversed digit list split in groups of three: helper for the
thousands separator of Python's `','` format flag. -/
def chunk3 : List Char → List (List Char)
  | [] => []
  | a :: b :: c :: rest => [a, b, c] :: chunk3 rest
  | l => [l]

/-- Insert thousands separators into a digit list. -/
def commaGroup (digits : List Char) : List Char :=
  (List.intercalate [','] (chunk3 digits.reverse)).reverse

/-- Fixed-point rendering with `d` decimals (round half to even, optional
thousands separators): the `'%,.Nf'`-style formats used by `fmt_val`. -/
def fixedDigits (v : ℚ) (d : ℕ) (comma : Bool) : String :=
  let m := (rndHalfEven (|v| * 10 ^ d)).toNat
  let ip := m / 10 ^ d
  let fp := m % 10 ^ d
  let ipChars := Nat.toDigits 10 ip
  let ipStr := String.mk (if comma then commaGroup ipChars else ipChars)
  let fpRaw := Nat.toDigits 10 fp
  let fpStr := String.mk (List.replicate (d - fpRaw.length) '0' ++ fpRaw)
  (if v < 0 then "-" else "") ++ ipStr ++ (if d = 0 then "" else "." ++ fpStr)

/-- Smallest exponent `k` with `den ∣ 10 ^ k`, when one exists below the
denominator itself: whether the rational has a finite decimal expansion. -/
def decExp (den : ℕ) : Option ℕ := (List.range (den + 1)).find? fun k => den ∣ 10 ^ k

/-- The generic `f"{val}"` branch of `fmt_val`, approximating Python's float
repr by the exact decimal expansion (with at least one decimal) when the
value has one.  No call site of the script reaches this branch: every call
passes one of the four recognised unit tags. -/
def formatPlain (v : ℚ) : String :=
  match decExp v.den with
  | some k => fixedDigits v (max k 1) false
  | none => toString v.num ++ "/" ++ toString v.den

/-- `fmt_val(val, unit, is_delta)`: markdown rendering of an optional value.
`None` renders as an em-dash for every unit tag. -/
def fmt_val (val : Option ℚ) (unit : String) (isDelta : Bool) : String :=
  match val with
  | none => "—"
  | some v =>
    let pfx := if isDelta ∧ 0 < v then "+" else ""
    if unit = "dollars" then pfx ++ "$" ++ fixedDigits v 2 true
    else if unit = "dollars_large" then
      if (1000000000 : ℚ) ≤ |v| then pfx ++ "$" ++ fixedDigits (v / 1000000000) 2 true ++ "B"
      else if (1000000 : ℚ) ≤ |v| then pfx ++ "$" ++ fixedDigits (v / 1000000) 1 true ++ "M"
      else pfx ++ "$" ++ fixedDigits v 0 true
    else if unit = "percent" then pfx ++ fixedDigits v 2 false ++ "%"
    else if unit = "ratio" then pfx ++ fixedDigits v 2 false
    else pfx ++ formatPlain v

/-! Payload shapes (section 6 of the spec): the fields each calculator
reads, with numeric fields already `safe_float`ed and date strings as
`YYYYMMDD` numbers. -/

def YEARS_TO_ANALYZE : ℕ := 5

/-- `date_str[:4]` on a `YYYYMMDD` date key. -/
def yearOf (d : ℕ) : ℕ := d / 10000

/-- `date_str[5:7]` on a `YYYYMMDD` date key. -/
def monthOf (d : ℕ) : ℕ := d / 100 % 100

/-- One entry of `'Monthly Adjusted Time Series'`: only
`'5. adjusted close'` is read. -/
structure MonthEntry where
  adjustedClose : Option ℚ
deriving Repr, DecidableEq

/-- `TIME_SERIES_MONTHLY_ADJUSTED` payload: the date-keyed mapping as an
association list (its iteration order never matters: the script sorts). -/
structure PricePayload where
  series : List (ℕ × MonthEntry)
deriving Repr, DecidableEq

structure QuarterlyEarning where
  fiscalDateEnding : Option ℕ
  reportedEPS : Option ℚ
  estimatedEPS : Option ℚ
deriving Repr, DecidableEq

structure AnnualEarning where
  fiscalDateEnding : Option ℕ
  reportedEPS : Option ℚ
deriving Repr, DecidableEq

/-- `EARNINGS` payload (a missing key reads as the empty list, matching
`.get(..., [])`). -/
structure EarningsPayload where
  quarterlyEarnings : List QuarterlyEarning
  annualEarnings : List AnnualEarning
deriving Repr, DecidableEq

structure IncomeReport where
  fiscalDateEnding : Option ℕ
  totalRevenue : Option ℚ
  operatingIncome : Option ℚ
deriving Repr, DecidableEq

/-- `INCOME_STATEMENT` payload. -/
structure IncomePayload where
  annualReports : List IncomeReport
  quarterlyReports : List IncomeReport
deriving Repr, DecidableEq

/-! Python dict operations used by `calculate_price_stats` and
`calculate_pe_stats`, on association lists whose keys stay unique. -/

/-- Python `d[k] = v`: overwrite the existing key in place, else append. -/
def dictInsert (d : List (ℕ × ℚ)) (k : ℕ) (v : ℚ) : List (ℕ × ℚ) :=
  if (d.map Prod.fst).contains k then d.map fun p => if p.1 = k then (k, v) else p
  else d ++ [(k, v)]

def dictKeys (d : List (ℕ × ℚ)) : List ℕ := d.map Prod.fst

/-- Python `d[k]` / `d.get(k)` on a `dictInsert`-built list (keys unique). -/
def dlookup (d : List (ℕ × ℚ)) (k : ℕ) : Option ℚ :=
  (d.find? fun p => p.1 = k).map Prod.snd

/-- Python `dict(pairs)`: left-to-right insertion, a later pair with the
same key overwrites the earlier value. -/
def pyDict (ps : List (ℕ × ℚ)) : List (ℕ × ℚ) :=
  ps.foldl (fun d p => dictInsert d p.1 p.2) []

/-! `calculate_price_stats`, decomposed into the source's intermediate
series so the theorems below can speak about them. -/

structure PriceStats where
  current : ℚ
  current_date : ℕ
  mean_5yr : Option ℚ
  cagr_5yr : Option ℝ
  cv : Option ℝ
  slope : Option ℚ
  vs_3mo_pct : Option ℚ
  vs_yoy_pct : Option ℚ
  high_52w : Option ℚ
  low_52w : Option ℚ
  vs_52w_high_pct : Option ℚ
  vs_52w_low_pct : Option ℚ
  months_of_data : ℕ
  annual_years : List ℕ
  annual_values : List ℚ
  annual_recent_delta : RecentDelta
  annual_outliers : List ℕ

/-- The `(date, close)` pairs with a parseable adjusted close, sorted newest
first — Python's stable `monthly.sort(key=..., reverse=True)` — before the
60-month cut. -/
def priceMonthlyAll (pd : PricePayload) : List (ℕ × ℚ) :=
  (pd.series.filterMap fun p => p.2.adjustedClose.map fun c => (p.1, c)).mergeSort
    fun a b => decide (b.1 ≤ a.1)

/-- `monthly = monthly[:60]`. -/
def priceMonthly (pd : PricePayload) : List (ℕ × ℚ) := (priceMonthlyAll pd).take 60

def priceCloses (pd : PricePayload) : List ℚ := (priceMonthly pd).map Prod.snd

def priceDates (pd : PricePayload) : List ℕ := (priceMonthly pd).map Prod.fst

/-- December closes keyed by year (fiscal year-end proxy), inserted over the
kept months sorted oldest first. -/
def annualPrices (pd : PricePayload) : List (ℕ × ℚ) :=
  ((priceMonthly pd).mergeSort fun a b => decide (a.1 ≤ b.1)).foldl
    (fun d p => if monthOf p.1 = 12 then dictInsert d (yearOf p.1) p.2 else d) []

/-- ... plus the most recent close standing in for the current year when its
December is not yet present. -/
def annualPricesWithCurrent (pd : PricePayload) : List (ℕ × ℚ) :=
  let current_year := yearOf ((priceDates pd).headD 0)
  if (dictKeys (annualPrices pd)).contains current_year then annualPrices pd
  else dictInsert (annualPrices pd) current_year ((priceCloses pd).headD 0)

/-- `sorted(annual_prices.keys())[-YEARS_TO_ANALYZE:]`. -/
def priceSortedYears (pd : PricePayload) : List ℕ :=
  let keys := dictKeys (annualPricesWithCurrent pd)
  (keys.mergeSort fun a b => decide (a ≤ b)).drop (keys.length - YEARS_TO_ANALYZE)

def priceAnnualValues (pd : PricePayload) : List ℚ :=
  (priceSortedYears pd).map fun y => (dlookup (annualPricesWithCurrent pd) y).getD 0

noncomputable def calculate_price_stats (price_data : Option PricePayload) :
    Option PriceStats :=
  match price_data with
  | none => none
  | some pd =>
    if pd.series = [] then none
    else if (priceMonthlyAll pd).length < 2 then none
    else
      let closes := priceCloses pd
      let current := closes.headD 0
      let vs_3mo :=
        if 3 < closes.length ∧ closes.getD 3 0 ≠ 0 then
          some (pyRound 2 ((current - closes.getD 3 0) / closes.getD 3 0 * 100)) else none
      let vs_yoy :=
        if 12 < closes.length ∧ closes.getD 12 0 ≠ 0 then
          some (pyRound 2 ((current - closes.getD 12 0) / closes.getD 12 0 * 100)) else none
      let last_12 := closes.take 12
      let high_52w := last_12.max?
      let low_52w := last_12.min?
      let closes_chrono := closes.reverse.map some
      let sorted_years := priceSortedYears pd
      let annual_values := priceAnnualValues pd
      some {
        current := current
        current_date := (priceDates pd).headD 0
        mean_5yr := calculate_avg closes_chrono
        cagr_5yr := calculate_cagr closes_chrono
        cv := calculate_cv closes_chrono
        slope := calculate_slope closes_chrono
        vs_3mo_pct := vs_3mo
        vs_yoy_pct := vs_yoy
        high_52w := high_52w
        low_52w := low_52w
        vs_52w_high_pct :=
          match high_52w with
          | some h => if h ≠ 0 then some (pyRound 2 ((current - h) / h * 100)) else none
          | none => none
        vs_52w_low_pct :=
          match low_52w with
          | some l => if l ≠ 0 then some (pyRound 2 ((current - l) / l * 100)) else none
          | none => none
        months_of_data := closes.length
        annual_years := sorted_years
        annual_values := annual_values
        annual_recent_delta := calculate_recent_delta (annual_values.map some)
        annual_outliers :=
          if annual_values ≠ [] then
            (detect_outliers (annual_values.map some)).map fun i => sorted_years.getD i 0
          else [] }

/-! `calculate_eps_stats`. -/

structure BeatMiss where
  date : Option ℕ
  reported : ℚ
  estimated : ℚ
  surprise : ℚ
  surprise_pct : Option ℚ
deriving Repr, DecidableEq

structure EpsStats where
  latest : ℚ
  latest_date : Option ℕ
  ttm : Option ℚ
  vs_prev_q_pct : Option ℚ
  vs_yoy_pct : Option ℚ
  mean_5yr : Option ℚ
  cagr_5yr : Option ℝ
  cv : Option ℝ
  slope : Option ℚ
  recent_delta : RecentDelta
  outlier_years : List ℕ
  annual_years : List ℕ
  annual_values : List ℚ
  years_of_data : ℕ
  beat_miss_history : List BeatMiss

/-- The `(eps, year)` pairs of the first `YEARS_TO_ANALYZE` annual entries
whose EPS parses and whose fiscal date is present (`if eps is not None and
year:` — a missing date gives the falsy `''`).  The source appends to two
parallel lists; pairs keep that lockstep explicit. -/
def epsAnnualPairs (d : EarningsPayload) : List (ℚ × ℕ) :=
  (d.annualEarnings.take YEARS_TO_ANALYZE).filterMap fun e =>
    match e.reportedEPS, e.fiscalDateEnding with
    | some v, some dt => some (v, yearOf dt)
    | _, _ => none

/-- TTM EPS: the sum of the four most recent quarterly EPS values, absent
unless at least four quarters exist and all four parse. -/
def epsTtm (quarterly : List QuarterlyEarning) : Option ℚ :=
  if 4 ≤ quarterly.length then
    let ttm_values := (quarterly.take 4).map fun q => q.reportedEPS
    if ttm_values.all Option.isSome then some (pyRound 2 (ttm_values.filterMap id).sum)
    else none
  else none

noncomputable def calculate_eps_stats (earnings_data : Option EarningsPayload) :
    Option EpsStats :=
  match earnings_data with
  | none => none
  | some data =>
    match data.quarterlyEarnings with
    | q0 :: q1 :: _ =>
      match q0.reportedEPS with
      | none => none
      | some latest_eps =>
        let quarterly := data.quarterlyEarnings
        let vs_prev_q :=
          match q1.reportedEPS with
          | some prev =>
            if prev ≠ 0 then some (pyRound 2 ((latest_eps - prev) / |prev| * 100)) else none
          | none => none
        let vs_yoy :=
          match quarterly.get? 4 with
          | some q4 =>
            match q4.reportedEPS with
            | some yoy =>
              if yoy ≠ 0 then some (pyRound 2 ((latest_eps - yoy) / |yoy| * 100)) else none
            | none => none
          | none => none
        let pairsE := epsAnnualPairs data
        let annual_eps := (pairsE.map Prod.fst).reverse
        let annual_years := (pairsE.map Prod.snd).reverse
        let beat_miss := (quarterly.take 4).filterMap fun q =>
          match q.reportedEPS, q.estimatedEPS with
          | some rep, some est =>
            some { date := q.fiscalDateEnding
                   reported := rep
                   estimated := est
                   surprise := pyRound 4 (rep - est)
                   surprise_pct :=
                     if est ≠ 0 then some (pyRound 2 ((rep - est) / |est| * 100)) else none }
          | _, _ => none
        some {
          latest := latest_eps
          latest_date := q0.fiscalDateEnding
          ttm := epsTtm quarterly
          vs_prev_q_pct := vs_prev_q
          vs_yoy_pct := vs_yoy
          mean_5yr := calculate_avg (annual_eps.map some)
          cagr_5yr := calculate_cagr (annual_eps.map some)
          cv := calculate_cv (annual_eps.map some)
          slope := calculate_slope (annual_eps.map some)
          recent_delta := calculate_recent_delta (annual_eps.map some)
          outlier_years :=
            if annual_eps ≠ [] then
              (detect_outliers (annual_eps.map some)).map fun i => annual_years.getD i 0
            else []
          annual_years := annual_years
          annual_values := annual_eps
          years_of_data := annual_eps.length
          beat_miss_history := beat_miss }
    | _ => none

/-! `calculate_revenue_stats` and `calculate_margin_stats`.  Both read the
income payload; `nowYear` stands for `datetime.now().year`, held fixed per
run. -/

structure RevenueStats where
  latest : ℚ
  latest_year : Option ℕ
  vs_yoy_pct : Option ℚ
  vs_prev_q_pct : Option ℚ
  mean_5yr : Option ℚ
  cagr_5yr : Option ℝ
  cv : Option ℝ
  slope : Option ℚ
  recent_delta : RecentDelta
  outlier_years : List ℕ
  annual_years : List ℕ
  annual_values : List ℚ
  years_of_data : ℕ
  ytd_annualized : Option ℚ
  ytd_num_quarters : ℕ
  quarterly_latest : Option ℚ
  quarterly_latest_date : Option ℕ

def revenueAnnualPairs (d : IncomePayload) : List (ℚ × ℕ) :=
  (d.annualReports.take YEARS_TO_ANALYZE).filterMap fun r =>
    match r.totalRevenue, r.fiscalDateEnding with
    | some v, some dt => some (v, yearOf dt)
    | _, _ => none

noncomputable def calculate_revenue_stats (nowYear : ℕ)
    (income_data : Option IncomePayload) : Option RevenueStats :=
  match income_data with
  | none => none
  | some data =>
    if data.annualReports = [] then none
    else
      let pairsR := revenueAnnualPairs data
      let annual_rev := (pairsR.map Prod.fst).reverse
      let annual_years := (pairsR.map Prod.snd).reverse
      if annual_rev.length < 2 then none
      else
        let latest := annual_rev.getLastD 0
        let prior := annual_rev.dropLast.getLastD 0
        let vs_yoy :=
          if 2 ≤ annual_rev.length ∧ prior ≠ 0 then
            some (pyRound 2 ((latest - prior) / |prior| * 100))
          else none
        let qr := data.quarterlyReports
        let vs_prev_q :=
          match qr with
          | r0 :: r1 :: _ =>
            match r0.totalRevenue, r1.totalRevenue with
            | some a, some b =>
              if a ≠ 0 ∧ b ≠ 0 then some (pyRound 2 ((a - b) / |b| * 100)) else none
            | _, _ => none
          | _ => none
        let ytd_quarters := qr.filter fun r =>
          match r.fiscalDateEnding with
          | some dt => decide (yearOf dt = nowYear)
          | none => false
        let ytd_num_quarters := ytd_quarters.length
        let ytd_annualized :=
          if ytd_quarters ≠ [] then
            some ((ytd_quarters.map fun r => r.totalRevenue.getD 0).sum *
              (4 / (ytd_num_quarters : ℚ)))
          else none
        some {
          latest := latest
          latest_year := annual_years.getLast?
          vs_yoy_pct := vs_yoy
          vs_prev_q_pct := vs_prev_q
          mean_5yr := calculate_avg (annual_rev.map some)
          cagr_5yr := calculate_cagr (annual_rev.map some)
          cv := calculate_cv (annual_rev.map some)
          slope := calculate_slope (annual_rev.map some)
          recent_delta := calculate_recent_delta (annual_rev.map some)
          outlier_years :=
            if annual_rev ≠ [] then
              (detect_outliers (annual_rev.map some)).map fun i => annual_years.getD i 0
            else []
          annual_years := annual_years
          annual_values := annual_rev
          years_of_data := annual_rev.length
          ytd_annualized := ytd_annualized
          ytd_num_quarters := ytd_num_quarters
          quarterly_latest := match qr with | r0 :: _ => r0.totalRevenue | [] => none
          quarterly_latest_date := match qr with | r0 :: _ => r0.fiscalDateEnding | [] => none }

structure MarginStats where
  latest : ℚ
  latest_year : Option ℕ
  vs_yoy_pct : Option ℚ
  vs_prev_q_pct : Option ℚ
  mean_5yr : Option ℚ
  cagr_5yr : Option ℝ
  cv : Option ℝ
  slope : Option ℚ
  recent_delta : RecentDelta
  outlier_years : List ℕ
  annual_years : List ℕ
  annual_values : List ℚ
  years_of_data : ℕ
  ytd_margin : Option ℚ
  ytd_num_quarters : ℕ

/-- The `(margin, year)` pairs: period margin is `pct(operatingIncome,
totalRevenue)`, computed independently per period. -/
def marginAnnualPairs (d : IncomePayload) : List (ℚ × ℕ) :=
  (d.annualReports.take YEARS_TO_ANALYZE).filterMap fun r =>
    match pct r.operatingIncome r.totalRevenue, r.fiscalDateEnding with
    | some m, some dt => some (m, yearOf dt)
    | _, _ => none

noncomputable def calculate_margin_stats (nowYear : ℕ)
    (income_data : Option IncomePayload) : Option MarginStats :=
  match income_data with
  | none => none
  | some data =>
    if data.annualReports = [] then none
    else
      let pairsM := marginAnnualPairs data
      let annual_margins := (pairsM.map Prod.fst).reverse
      let annual_years := (pairsM.map Prod.snd).reverse
      if annual_margins.length < 2 then none
      else
        let latest := annual_margins.getLastD 0
        let vs_yoy :=
          if 2 ≤ annual_margins.length then
            some (pyRound 2 (latest - annual_margins.dropLast.getLastD 0))
          else none
        let qr := data.quarterlyReports
        let vs_prev_q :=
          match qr with
          | r0 :: r1 :: _ =>
            match pct r0.operatingIncome r0.totalRevenue,
              pct r1.operatingIncome r1.totalRevenue with
            | some a, some b => some (pyRound 2 (a - b))
            | _, _ => none
          | _ => none
        let ytd_quarters := qr.filter fun r =>
          match r.fiscalDateEnding with
          | some dt => decide (yearOf dt = nowYear)
          | none => false
        let ytd_num_quarters := ytd_quarters.length
        let ytd_margin :=
          if ytd_quarters ≠ [] then
            pct (some (ytd_quarters.map fun r => r.operatingIncome.getD 0).sum)
              (some (ytd_quarters.map fun r => r.totalRevenue.getD 0).sum)
          else none
        some {
          latest := latest
          latest_year := annual_years.getLast?
          vs_yoy_pct := vs_yoy
          vs_prev_q_pct := vs_prev_q
          mean_5yr := calculate_avg (annual_margins.map some)
          cagr_5yr := calculate_cagr (annual_margins.map some)
          cv := calculate_cv (annual_margins.map some)
          slope := calculate_slope (annual_margins.map some)
          recent_delta := calculate_recent_delta (annual_margins.map some)
          outlier_years :=
            if annual_margins ≠ [] then
              (detect_outliers (annual_margins.map some)).map fun i => annual_years.getD i 0
            else []
          annual_years := annual_years
          annual_values := annual_margins
          years_of_data := annual_margins.length
          ytd_margin := ytd_margin
          ytd_num_quarters := ytd_num_quarters }

/-! `calculate_pe_stats`: derived from the already-computed price and EPS
records. -/

structure PeStats where
  trailing_pe : Option ℚ
  current_price : ℚ
  ttm_eps : Option ℚ
  mean_5yr : Option ℚ
  cagr_5yr : Option ℝ
  cv : Option ℝ
  slope : Option ℚ
  vs_yoy_pct : Option ℚ
  vs_5yr_avg_pct : Option ℚ
  recent_delta : RecentDelta
  outlier_years : List ℕ
  annual_years : List ℕ
  annual_values : List ℚ
  years_of_data : ℕ

/-- `sorted(set(price_annual.keys()) & set(eps_annual.keys()))`. -/
def peCommonYears (pr : PriceStats) (er : EpsStats) : List ℕ :=
  let price_annual := pyDict (pr.annual_years.zip pr.annual_values)
  let eps_annual := pyDict (er.annual_years.zip er.annual_values)
  ((dictKeys price_annual).filter fun y => (dictKeys eps_annual).contains y).mergeSort
    fun a b => decide (a ≤ b)

/-- The `(year, P/E)` pairs: over the common years, keep those whose annual
EPS is strictly positive, with `round(price / eps, 2)`. -/
def pePairs (pr : PriceStats) (er : EpsStats) : List (ℕ × ℚ) :=
  let price_annual := pyDict (pr.annual_years.zip pr.annual_values)
  let eps_annual := pyDict (er.annual_years.zip er.annual_values)
  (peCommonYears pr er).filterMap fun year =>
    match dlookup price_annual year, dlookup eps_annual year with
    | some price, some eps =>
      if 0 < eps then some (year, pyRound 2 (price / eps)) else none
    | _, _ => none

noncomputable def calculate_pe_stats (price_stats : Option PriceStats)
    (eps_stats : Option EpsStats) : Option PeStats :=
  match price_stats, eps_stats with
  | some pr, some er =>
    let current_price := pr.current
    let trailing_pe :=
      match er.ttm with
      | some t =>
        if current_price ≠ 0 ∧ t ≠ 0 ∧ 0 < t then some (pyRound 2 (current_price / t))
        else none
      | none => none
    let pairsP := pePairs pr er
    let pe_values := pairsP.map Prod.snd
    let pe_years := pairsP.map Prod.fst
    let mean_5yr := if pe_values ≠ [] then calculate_avg (pe_values.map some) else none
    let vs_5yr_avg :=
      match trailing_pe, mean_5yr with
      | some t, some m =>
        if t ≠ 0 ∧ m ≠ 0 then some (pyRound 2 ((t - m) / m * 100)) else none
      | _, _ => none
    let vs_yoy :=
      if 2 ≤ pe_values.length ∧ pe_values.dropLast.getLastD 0 ≠ 0 then
        some (pyRound 2 ((pe_values.getLastD 0 - pe_values.dropLast.getLastD 0) /
          pe_values.dropLast.getLastD 0 * 100))
      else none
    some {
      trailing_pe := trailing_pe
      current_price := current_price
      ttm_eps := er.ttm
      mean_5yr := mean_5yr
      cagr_5yr := calculate_cagr (pe_values.map some)
      cv := calculate_cv (pe_values.map some)
      slope := calculate_slope (pe_values.map some)
      vs_yoy_pct := vs_yoy
      vs_5yr_avg_pct := vs_5yr_avg
      recent_delta := calculate_recent_delta (pe_values.map some)
      outlier_years :=
        if pe_values ≠ [] then
          (detect_outliers (pe_values.map some)).map fun i => pe_years.getD i 0
        else []
      annual_years := pe_years
      annual_values := pe_values
      years_of_data := pe_values.length }
  | _, _ => none

/-! `calculate_estimates_stats`. -/

structure EstimateEntry where
  date : Option ℕ
  horizon : Option String
  eps_estimate_average : Option ℚ
  eps_estimate_high : Option ℚ
  eps_estimate_low : Option ℚ
  eps_estimate_analyst_count : Option ℚ
  eps_estimate_average_7_days_ago : Option ℚ
  eps_estimate_average_30_days_ago : Option ℚ
  eps_estimate_average_60_days_ago : Option ℚ
  eps_estimate_average_90_days_ago : Option ℚ
  eps_estimate_revision_up_trailing_7_days : Option ℚ
  eps_estimate_revision_down_trailing_7_days : Option ℚ
  eps_estimate_revision_up_trailing_30_days : Option ℚ
  eps_estimate_revision_down_trailing_30_days : Option ℚ
  revenue_estimate_average : Option ℚ
  revenue_estimate_high : Option ℚ
  revenue_estimate_low : Option ℚ
  revenue_estimate_analyst_count : Option ℚ
deriving Repr, DecidableEq

/-- `EARNINGS_ESTIMATES` payload. -/
structure EstimatesPayload where
  estimates : List EstimateEntry
deriving Repr, DecidableEq

/-- One element of `parsed`: the script's renaming of the API fields. -/
structure ParsedEstimate where
  date : Option ℕ
  horizon : Option String
  eps_avg : Option ℚ
  eps_high : Option ℚ
  eps_low : Option ℚ
  analyst_count : Option ℚ
  revision_7d : Option ℚ
  revision_30d : Option ℚ
  revision_60d : Option ℚ
  revision_90d : Option ℚ
  rev_up_7d : Option ℚ
  rev_down_7d : Option ℚ
  rev_up_30d : Option ℚ
  rev_down_30d : Option ℚ
  revenue_avg : Option ℚ
  revenue_high : Option ℚ
  revenue_low : Option ℚ
  revenue_analyst_count : Option ℚ
deriving Repr, DecidableEq

def toParsed (e : EstimateEntry) : ParsedEstimate :=
  { date := e.date
    horizon := e.horizon
    eps_avg := e.eps_estimate_average
    eps_high := e.eps_estimate_high
    eps_low := e.eps_estimate_low
    analyst_count := e.eps_estimate_analyst_count
    revision_7d := e.eps_estimate_average_7_days_ago
    revision_30d := e.eps_estimate_average_30_days_ago
    revision_60d := e.eps_estimate_average_60_days_ago
    revision_90d := e.eps_estimate_average_90_days_ago
    rev_up_7d := e.eps_estimate_revision_up_trailing_7_days
    rev_down_7d := e.eps_estimate_revision_down_trailing_7_days
    rev_up_30d := e.eps_estimate_revision_up_trailing_30_days
    rev_down_30d := e.eps_estimate_revision_down_trailing_30_days
    revenue_avg := e.revenue_estimate_average
    revenue_high := e.revenue_estimate_high
    revenue_low := e.revenue_estimate_low
    revenue_analyst_count := e.revenue_estimate_analyst_count }

/-- Whether `pat` occurs as a contiguous substring (Python `in`). -/
def subOccurs (hay pat : List Char) : Bool :=
  match hay with
  | [] => pat.isEmpty
  | _ :: t => pat.isPrefixOf hay || subOccurs t pat

def strContains (hay pat : String) : Bool := subOccurs hay.data pat.data

/-- The first-match-wins horizon scan: `(next_quarter, next_fiscal_year,
current_fiscal_year)`, each keeping the first parsed estimate whose
cleaned horizon contains the fixed phrase, by the source's `if`/`elif`
chain. -/
def findHorizons (parsed : List ParsedEstimate) :
    Option ParsedEstimate × Option ParsedEstimate × Option ParsedEstimate :=
  parsed.foldl
    (fun acc p =>
      let (nq, nfy, cfy) := acc
      let hz := (p.horizon.getD "").trim.toLower
      if strContains hz "next quarter" ∧ nq.isNone then (some p, nfy, cfy)
      else if strContains hz "next fiscal year" ∧ nfy.isNone then (nq, some p, cfy)
      else if strContains hz "current fiscal year" ∧ cfy.isNone then (nq, nfy, some p)
      else acc)
    (none, none, none)

structure EstimatesStats where
  latest_actual_eps : Option ℚ
  next_quarter : Option ParsedEstimate
  current_fiscal_year : Option ParsedEstimate
  next_fiscal_year : Option ParsedEstimate
  delta_actual_vs_next_q : Option ℚ
  delta_actual_vs_next_q_pct : Option ℚ
  all_estimates : List ParsedEstimate
deriving Repr, DecidableEq

def calculate_estimates_stats (estimates_data : Option EstimatesPayload)
    (earnings_data : Option EarningsPayload) : Option EstimatesStats :=
  match estimates_data with
  | none => none
  | some ed =>
    if ed.estimates = [] then none
    else
      let latest_actual :=
        match earnings_data with
        | some d =>
          match d.quarterlyEarnings with
          | q0 :: _ => q0.reportedEPS
          | [] => none
        | none => none
      let parsed := ed.estimates.map toParsed
      let (next_quarter, next_fiscal_year, current_fiscal_year) := findHorizons parsed
      let deltas :=
        match latest_actual, next_quarter with
        | some la, some nq =>
          match nq.eps_avg with
          | some avg =>
            if avg ≠ 0 then
              (some (pyRound 4 (la - avg)), some (pyRound 2 ((la - avg) / |avg| * 100)))
            else (none, none)
          | none => (none, none)
        | _, _ => (none, none)
      some {
        latest_actual_eps := latest_actual
        next_quarter := next_quarter
        current_fiscal_year := current_fiscal_year
        next_fiscal_year := next_fiscal_year
        delta_actual_vs_next_q := deltas.1
        delta_actual_vs_next_q_pct := deltas.2
        all_estimates := parsed }

/-! The report assembler, `generate_screening_report`.  The external
`tabulate` library is a parameter `tab rows headers` (its pipe-table
rendering is not part of this repository); `datetime.now()` is the
parameters `date_str` / `nowYear`, fixed for a run; the final file write
is I/O outside the core — the function returns the text written. -/

/-- Python `int(x)` on a float: truncation toward zero. -/
def pyInt (q : ℚ) : ℤ := if q < 0 then -⌊-q⌋ else ⌊q⌋

/-- Python truthiness of an optional float: `None` and `0.0` are falsy. -/
def truthyQ (o : Option ℚ) : Bool :=
  match o with
  | some v => v != 0
  | none => false

def pad2 (n : ℕ) : String := if n < 10 then "0" ++ toString n else toString n

/-- Present a `YYYYMMDD` date key as the `"YYYY-MM-DD"` string it models. -/
def dateStrOf (d : ℕ) : String :=
  toString (yearOf d) ++ "-" ++ pad2 (monthOf d) ++ "-" ++ pad2 (d % 100)

/-- An optional date in an f-string: Python prints `None` for `None`. -/
def optDateStr (o : Option ℕ) : String :=
  match o with
  | some d => dateStrOf d
  | none => "None"

/-- `', '.join(items) or 'None'`. -/
def joinComma (items : List String) : String :=
  let s := String.intercalate ", " items
  if s = "" then "None" else s

/-- `fmt_val` for the two real-valued statistics (CAGR, CV): the same
format dispatch, over `ℝ`. -/
noncomputable def fixedDigitsR (v : ℝ) (d : ℕ) (comma : Bool) : String :=
  let m := (rndHalfEvenR (|v| * 10 ^ d)).toNat
  let ip := m / 10 ^ d
  let fp := m % 10 ^ d
  let ipChars := Nat.toDigits 10 ip
  let ipStr := String.mk (if comma then commaGroup ipChars else ipChars)
  let fpRaw := Nat.toDigits 10 fp
  let fpStr := String.mk (List.replicate (d - fpRaw.length) '0' ++ fpRaw)
  (if v < 0 then "-" else "") ++ ipStr ++ (if d = 0 then "" else "." ++ fpStr)

noncomputable def fmt_valR (val : Option ℝ) (unit : String) (isDelta : Bool) : String :=
  match val with
  | none => "—"
  | some v =>
    let pfx := if isDelta ∧ 0 < v then "+" else ""
    if unit = "dollars" then pfx ++ "$" ++ fixedDigitsR v 2 true
    else if unit = "dollars_large" then
      if (1000000000 : ℝ) ≤ |v| then pfx ++ "$" ++ fixedDigitsR (v / 1000000000) 2 true ++ "B"
      else if (1000000 : ℝ) ≤ |v| then pfx ++ "$" ++ fixedDigitsR (v / 1000000) 1 true ++ "M"
      else pfx ++ "$" ++ fixedDigitsR v 0 true
    else if unit = "percent" then pfx ++ fixedDigitsR v 2 false ++ "%"
    else if unit = "ratio" then pfx ++ fixedDigitsR v 2 false
    else pfx ++ "?"

/-- `build_annual_table(years, values, unit, current_label, current_val)`:
`(headers, row_vals)`; the extra column is appended when the label is
truthy and the value is not `None`. -/
def build_annual_table (years : List ℕ) (values : List ℚ) (unit : String)
    (current_label : Option String) (current_val : Option ℚ) :
    List String × List String :=
  let headers := "" :: years.map toString
  let row_vals := values.map fun v => fmt_val (some v) unit false
  match current_label, current_val with
  | some lbl, some cv =>
    if lbl ≠ "" then (headers ++ [lbl], row_vals ++ [fmt_val (some cv) unit false])
    else (headers, row_vals)
  | _, _ => (headers, row_vals)

structure TickerResults where
  price : Option PriceStats
  eps : Option EpsStats
  revenue : Option RevenueStats
  margin : Option MarginStats
  pe : Option PeStats
  estimates : Option EstimatesStats

/-- The per-ticker block of the report (the body of the source's
`for ticker in tickers` loop, factored out). -/
noncomputable def tickerSection (tab : List (List String) → List String → String)
    (ticker : String) (results : Option TickerResults) : List String :=
  match results with
  | none => ["## " ++ ticker, "", "Data unavailable.", "", "---", ""]
  | some r =>
    let summary_headers := ["Metric", "YoY", "3M / Prev Q", "5yr CAGR"]
    let summary_rows :=
      [match r.price with
       | some p => ["Price", fmt_val p.vs_yoy_pct "percent" true,
           fmt_val p.vs_3mo_pct "percent" true, fmt_valR p.cagr_5yr "percent" false]
       | none => ["Price", "—", "—", "—"],
       match r.eps with
       | some e => ["EPS", fmt_val e.vs_yoy_pct "percent" true,
           fmt_val e.vs_prev_q_pct "percent" true, fmt_valR e.cagr_5yr "percent" false]
       | none => ["EPS", "—", "—", "—"],
       match r.revenue with
       | some v => ["Revenue", fmt_val v.vs_yoy_pct "percent" true,
           fmt_val v.vs_prev_q_pct "percent" true, fmt_valR v.cagr_5yr "percent" false]
       | none => ["Revenue", "—", "—", "—"],
       match r.margin with
       | some m => ["Op. Margin", fmt_val m.vs_yoy_pct "percent" true,
           fmt_val m.vs_prev_q_pct "percent" true, fmt_valR m.cagr_5yr "percent" false]
       | none => ["Op. Margin", "—", "—", "—"]]
    let peLine :=
      match r.pe with
      | some pe =>
        "**P/E:** " ++ String.intercalate " | "
          ["Trailing " ++ fmt_val pe.trailing_pe "ratio" false,
           "YoY " ++ fmt_val pe.vs_yoy_pct "percent" true,
           "vs 5yr Avg (" ++ fmt_val pe.mean_5yr "ratio" false ++ "): " ++
             fmt_val pe.vs_5yr_avg_pct "percent" true]
      | none => "**P/E:** —"
    let estLine :=
      match r.estimates with
      | some est =>
        match est.next_quarter with
        | some nq =>
          if nq.eps_avg.isSome then
            "**Estimates:** " ++ String.intercalate " | "
              (["Latest actual EPS " ++ fmt_val est.latest_actual_eps "dollars" false,
                "Next Q consensus " ++ fmt_val nq.eps_avg "dollars" false,
                "Delta " ++ fmt_val est.delta_actual_vs_next_q_pct "percent" true] ++
                if truthyQ nq.analyst_count then
                  [toString (pyInt (nq.analyst_count.getD 0)) ++ " analysts"]
                else [])
          else "**Estimates:** —"
        | none => "**Estimates:** —"
      | none => "**Estimates:** —"
    let priceSection :=
      match r.price with
      | some p =>
        if p.annual_years ≠ [] then
          let t := build_annual_table p.annual_years p.annual_values "dollars"
            (some "Current") (some p.current)
          let row := "Price" :: t.2
          let headers := "" :: t.1.tail
          [tab [row] headers, "",
           tab [[fmt_val (some p.current) "dollars" false,
                 fmt_val p.mean_5yr "dollars" false,
                 fmt_valR p.cagr_5yr "percent" false,
                 fmt_val p.vs_yoy_pct "percent" true,
                 fmt_val p.vs_3mo_pct "percent" true,
                 fmt_valR p.cv "percent" false,
                 fmt_val p.slope "ratio" false,
                 fmt_val p.high_52w "dollars" false ++ " (" ++
                   fmt_val p.vs_52w_high_pct "percent" true ++ ")",
                 fmt_val p.low_52w "dollars" false ++ " (" ++
                   fmt_val p.vs_52w_low_pct "percent" true ++ ")",
                 joinComma (p.annual_outliers.map toString)]]
             ["Current", "5yr Mean", "5yr CAGR", "YoY", "3M", "CV", "Slope",
              "52w High", "52w Low", "Outliers"]]
        else ["*No price data available*"]
      | none => ["*No price data available*"]
    let epsSection :=
      match r.eps with
      | some e =>
        if e.annual_years ≠ [] then
          let t := build_annual_table e.annual_years e.annual_values "dollars"
            (some "TTM") e.ttm
          let row := "EPS" :: t.2
          let headers := "" :: t.1.tail
          [tab [row] headers, "",
           tab [[fmt_val (some e.latest) "dollars" false,
                 fmt_val e.mean_5yr "dollars" false,
                 fmt_valR e.cagr_5yr "percent" false,
                 fmt_val e.vs_yoy_pct "percent" true,
                 fmt_val e.vs_prev_q_pct "percent" true,
                 fmt_valR e.cv "percent" false,
                 fmt_val e.slope "ratio" false,
                 joinComma (e.outlier_years.map toString)]]
             ["Latest Q", "5yr Mean", "5yr CAGR", "YoY", "Prev Q", "CV", "Slope", "Outliers"]]
        else ["*No EPS data available*"]
      | none => ["*No EPS data available*"]
    let revenueSection :=
      match r.revenue with
      | some v =>
        if v.annual_years ≠ [] then
          let cl :=
            if truthyQ v.ytd_annualized then
              (some ("YTD Ann. (" ++ toString v.ytd_num_quarters ++ "Q)"), v.ytd_annualized)
            else (none, none)
          let t := build_annual_table v.annual_years v.annual_values "dollars_large"
            cl.1 cl.2
          let row := "Revenue" :: t.2
          let headers := "" :: t.1.tail
          [tab [row] headers, "",
           tab [[fmt_val (some v.latest) "dollars_large" false,
                 fmt_val v.mean_5yr "dollars_large" false,
                 fmt_valR v.cagr_5yr "percent" false,
                 fmt_val v.vs_yoy_pct "percent" true,
                 fmt_val v.vs_prev_q_pct "percent" true,
                 fmt_valR v.cv "percent" false,
                 fmt_val v.slope "ratio" false,
                 joinComma (v.outlier_years.map toString)]]
             ["Latest", "5yr Mean", "5yr CAGR", "YoY", "Prev Q", "CV", "Slope", "Outliers"]]
        else ["*No revenue data available*"]
      | none => ["*No revenue data available*"]
    let marginSection :=
      match r.margin with
      | some m =>
        if m.annual_years ≠ [] then
          let cl :=
            if m.ytd_margin.isSome then
              (some ("YTD (" ++ toString m.ytd_num_quarters ++ "Q)"), m.ytd_margin)
            else (none, none)
          let t := build_annual_table m.annual_years m.annual_values "percent" cl.1 cl.2
          let row := "Op. Margin" :: t.2
          let headers := "" :: t.1.tail
          [tab [row] headers, "",
           tab [[fmt_val (some m.latest) "percent" false,
                 fmt_val m.mean_5yr "percent" false,
                 fmt_valR m.cagr_5yr "percent" false,
                 fmt_val m.vs_yoy_pct "percent" true,
                 fmt_val m.vs_prev_q_pct "percent" true,
                 fmt_valR m.cv "percent" false,
                 fmt_val m.slope "ratio" false,
                 joinComma (m.outlier_years.map toString)]]
             ["Latest", "5yr Mean", "5yr CAGR", "YoY (pp)", "Prev Q (pp)", "CV", "Slope",
              "Outliers"]]
        else ["*No operating margin data available*"]
      | none => ["*No operating margin data available*"]
    let peSection :=
      match r.pe with
      | some pe =>
        if pe.annual_years ≠ [] then
          let t := build_annual_table pe.annual_years pe.annual_values "ratio"
            (some "Trailing") pe.trailing_pe
          let row := "P/E" :: t.2
          let headers := "" :: t.1.tail
          [tab [row] headers, "",
           tab [[fmt_val pe.trailing_pe "ratio" false,
                 fmt_val pe.mean_5yr "ratio" false,
                 fmt_val pe.vs_5yr_avg_pct "percent" true,
                 fmt_val pe.vs_yoy_pct "percent" true,
                 fmt_valR pe.cv "percent" false,
                 fmt_val pe.slope "ratio" false,
                 joinComma (pe.outlier_years.map toString)]]
             ["Trailing", "5yr Mean", "vs 5yr Avg", "YoY", "CV", "Slope", "Outliers"]]
        else ["*No P/E data available (negative or insufficient earnings)*"]
      | none => ["*No P/E data available (negative or insufficient earnings)*"]
    let estRow := fun (e : ParsedEstimate) =>
      let label := match e.horizon with | some h => h | none => "None"
      let dstr := match e.date with | some d => dateStrOf d | none => "None"
      let rev30 :=
        match e.revision_30d, e.eps_avg with
        | some r30, some avg =>
          let diff := pyRound 4 (avg - r30)
          if diff ≠ 0 then fmt_val (some diff) "dollars" true else "flat"
        | _, _ => "—"
      [label ++ " (" ++ dstr ++ ")",
       fmt_val e.eps_avg "dollars" false,
       fmt_val e.eps_low "dollars" false,
       fmt_val e.eps_high "dollars" false,
       if truthyQ e.analyst_count then toString (pyInt (e.analyst_count.getD 0)) else "—",
       rev30]
    let revEstRow := fun (e : ParsedEstimate) =>
      let label := match e.horizon with | some h => h | none => "None"
      let dstr := match e.date with | some d => dateStrOf d | none => "None"
      [label ++ " (" ++ dstr ++ ")",
       fmt_val e.revenue_avg "dollars_large" false,
       fmt_val e.revenue_low "dollars_large" false,
       fmt_val e.revenue_high "dollars_large" false,
       if truthyQ e.revenue_analyst_count then toString (pyInt (e.revenue_analyst_count.getD 0))
       else "—"]
    let estimatesSection :=
      match r.estimates with
      | some est =>
        let latestLine :=
          if est.latest_actual_eps.isSome then
            ["**Latest Actual EPS:** " ++ fmt_val est.latest_actual_eps "dollars" false, ""]
          else []
        let est_rows :=
          [est.next_quarter, est.current_fiscal_year, est.next_fiscal_year].filterMap
            fun e? =>
              match e? with
              | some e => if e.eps_avg.isSome then some (estRow e) else none
              | none => none
        let epsTable :=
          if est_rows ≠ [] then
            [tab est_rows ["Horizon", "Consensus", "Low", "High", "Analysts", "30d Revision"],
             ""]
          else []
        let rev_rows :=
          [est.next_quarter, est.current_fiscal_year, est.next_fiscal_year].filterMap
            fun e? =>
              match e? with
              | some e => if e.revenue_avg.isSome then some (revEstRow e) else none
              | none => none
        let revTable :=
          if rev_rows ≠ [] then
            ["**Revenue Estimates:**", "",
             tab rev_rows ["Horizon", "Consensus", "Low", "High", "Analysts"], ""]
          else []
        let beat_miss := match r.eps with | some e => e.beat_miss_history | none => []
        let bmTable :=
          if beat_miss ≠ [] then
            ["**Recent Beat/Miss History:**", "",
             tab (beat_miss.map fun bm =>
                 [optDateStr bm.date,
                  fmt_val (some bm.reported) "dollars" false,
                  fmt_val (some bm.estimated) "dollars" false,
                  fmt_val (some bm.surprise) "dollars" true,
                  fmt_val bm.surprise_pct "percent" true])
               ["Quarter", "Reported", "Estimated", "Surprise", "Surprise %"],
             ""]
          else []
        latestLine ++ epsTable ++ revTable ++ bmTable
      | none => ["*No estimates data available*", ""]
    ["## " ++ ticker, "", "### Summary", "",
     tab summary_rows summary_headers, "", peLine, "", estLine, "",
     "### Price Trend", ""] ++ priceSection ++ ["",
     "### EPS Trend", ""] ++ epsSection ++ ["",
     "### Revenue Trend", ""] ++ revenueSection ++ ["",
     "### Operating Margin Trend", ""] ++ marginSection ++ ["",
     "### P/E Trend", ""] ++ peSection ++ ["",
     "### EPS Estimates", ""] ++ estimatesSection ++
    ["---", ""]

/-- `generate_screening_report(tickers, all_results)`: the full markdown
text, one section sequence per ticker in the order given. -/
noncomputable def generate_screening_report
    (tab : List (List String) → List String → String) (date_str : String)
    (tickers : List String) (all_results : List (String × TickerResults)) : String :=
  let header := ["# Stock Screening — " ++ date_str, "",
    "**Tickers:** " ++ String.intercalate ", " tickers, "", "---", ""]
  let body := tickers.flatMap fun ticker =>
    tickerSection tab ticker ((all_results.find? fun p => p.1 = ticker).map Prod.snd)
  String.intercalate "\n" (header ++ body)

/-- The per-ticker payload set of `main` (the four endpoints). -/
structure TickerData where
  price_monthly : Option PricePayload
  earnings : Option EarningsPayload
  earnings_estimates : Option EstimatesPayload
  income : Option IncomePayload

/-- The pure computation `main` performs per ticker once the payloads are
in hand. -/
noncomputable def runTicker (nowYear : ℕ) (data : TickerData) : TickerResults :=
  let price := calculate_price_stats data.price_monthly
  let eps := calculate_eps_stats data.earnings
  { price := price
    eps := eps
    revenue := calculate_revenue_stats nowYear data.income
    margin := calculate_margin_stats nowYear data.income
    pe := calculate_pe_stats price eps
    estimates := calculate_estimates_stats data.earnings_estimates data.earnings }

/-- The whole statistics-and-report pipeline over already-fetched payloads. -/
noncomputable def runScreening (tab : List (List String) → List String → String)
    (date_str : String) (nowYear : ℕ) (tickers : List String)
    (data : List (String × TickerData)) : String :=
  generate_screening_report tab date_str tickers
    (data.map fun p => (p.1, runTicker nowYear p.2))

/-! Concrete example payloads used by the closed theorems below. -/

/-- An earnings payload with two parseable quarters and NO annual entries. -/
def epsNoAnnualPayload : EarningsPayload :=
  { quarterlyEarnings :=
      [{ fiscalDateEnding := some 20250630, reportedEPS := some 2, estimatedEPS := some 1 },
       { fiscalDateEnding := some 20250331, reportedEPS := some 1, estimatedEPS := some 1 }]
    annualEarnings := [] }

/-- A price payload with 13 valid monthly closes, newest first
(2025-10 back to 2024-10). -/
def pricePayload13 : PricePayload :=
  { series :=
      [(20251031, ⟨some 110⟩), (20250930, ⟨some 109⟩), (20250831, ⟨some 108⟩),
       (20250731, ⟨some 107⟩), (20250630, ⟨some 106⟩), (20250531, ⟨some 105⟩),
       (20250430, ⟨some 104⟩), (20250331, ⟨some 103⟩), (20250228, ⟨some 102⟩),
       (20250131, ⟨some 101⟩), (20241231, ⟨some 100⟩), (20241130, ⟨some 99⟩),
       (20241031, ⟨some 88⟩)] }

/-- A price stats record carrying the annual series `{2021: 150, 2022: 130}`
(the other fields immaterial to the P/E join). -/
def prC4 : PriceStats :=
  { current := 150, current_date := 20221231, mean_5yr := none, cagr_5yr := none,
    cv := none, slope := none, vs_3mo_pct := none, vs_yoy_pct := none, high_52w := none,
    low_52w := none, vs_52w_high_pct := none, vs_52w_low_pct := none, months_of_data := 0,
    annual_years := [2021, 2022], annual_values := [150, 130],
    annual_recent_delta := ⟨none, none⟩, annual_outliers := [] }

/-- An EPS stats record carrying the annual series `{2021: 5, 2022: -1}` and
no TTM figure. -/
def erC4 : EpsStats :=
  { latest := 1, latest_date := none, ttm := none, vs_prev_q_pct := none,
    vs_yoy_pct := none, mean_5yr := none, cagr_5yr := none, cv := none, slope := none,
    recent_delta := ⟨none, none⟩, outlier_years := [], annual_years := [2021, 2022],
    annual_values := [5, -1], years_of_data := 2, beat_miss_history := [] }

/-- An earnings payload with two quarters and two newest-first annual
entries (fiscal years 2024, 2023). -/
def epsPayloadC8 : EarningsPayload :=
  { quarterlyEarnings :=
      [{ fiscalDateEnding := some 20250630, reportedEPS := some 2, estimatedEPS := some 1 },
       { fiscalDateEnding := some 20250331, reportedEPS := some 1, estimatedEPS := some 1 }]
    annualEarnings :=
      [{ fiscalDateEnding := some 20241231, reportedEPS := some 4 },
       { fiscalDateEnding := some 20231231, reportedEPS := some 3 }] }

/-! Helper lemmas about the enumerate-filter idiom and outlier detection. -/

/-- Mean of the non-`None` entries (the `mean` local of `detect_outliers`,
expressed over the filtered sequence). -/
def cleanMean (values : List (Option ℚ)) : ℚ :=
  (values.filterMap id).sum / ((values.filterMap id).length : ℚ)

/-- Population variance of the non-`None` entries (the `variance` local of
`detect_outliers`). -/
def cleanVariance (values : List (Option ℚ)) : ℚ :=
  (((values.filterMap id).map fun x => (x - cleanMean values) ^ 2).sum) /
    ((values.filterMap id).length : ℚ)

theorem cleanEnumFrom_mem (values : List (Option ℚ)) :
    ∀ (n i : ℕ) (v : ℚ),
      ((i, v) ∈ (values.enumFrom n).filterMap fun p => p.2.map fun w => (p.1, w)) ↔
        ∃ j, i = n + j ∧ values.get? j = some (some v) := by
  induction values with
  | nil => intro n i v; simp
  | cons a l ih =>
    intro n i v
    cases a with
    | none =>
      simp only [List.enumFrom_cons, List.filterMap_cons, Option.map_none']
      rw [ih (n + 1)]
      constructor
      · rintro ⟨j, rfl, h⟩
        exact ⟨j + 1, by omega, by simpa using h⟩
      · rintro ⟨j, rfl, h⟩
        cases j with
        | zero => simp at h
        | succ j => exact ⟨j, by omega, by simpa using h⟩
    | some w =>
      simp only [List.enumFrom_cons, List.filterMap_cons, Option.map_some']
      rw [List.mem_cons, ih (n + 1)]
      constructor
      · rintro (h | ⟨j, rfl, h⟩)
        · obtain ⟨rfl, rfl⟩ := Prod.mk.injEq .. ▸ h
          exact ⟨0, by omega, by simp⟩
        · exact ⟨j + 1, by omega, by simpa using h⟩
      · rintro ⟨j, rfl, h⟩
        cases j with
        | zero =>
          left
          simp at h
          simp [h]
        | succ j => exact Or.inr ⟨j, by omega, by simpa using h⟩

theorem mem_cleanEnum {values : List (Option ℚ)} {i : ℕ} {v : ℚ} :
    (i, v) ∈ cleanEnum values ↔ values.get? i = some (some v) := by
  unfold cleanEnum
  rw [show values.enum = values.enumFrom 0 from rfl, cleanEnumFrom_mem]
  constructor
  · rintro ⟨j, rfl, h⟩; simpa using h
  · intro h; exact ⟨i, by omega, h⟩

theorem cleanEnum_map_snd (values : List (Option ℚ)) :
    (cleanEnum values).map Prod.snd = values.filterMap id := by
  unfold cleanEnum
  rw [show values.enum = values.enumFrom 0 from rfl]
  generalize 0 = n
  induction values generalizing n with
  | nil => simp
  | cons a l ih =>
    cases a with
    | none => simpa using ih (n + 1)
    | some w => simpa using ih (n + 1)

theorem cleanEnum_length (values : List (Option ℚ)) :
    (cleanEnum values).length = (values.filterMap id).length := by
  rw [← cleanEnum_map_snd, List.length_map]

/-- Membership characterization of `detect_outliers`: exactly the original
positions holding a value whose squared distance from the mean exceeds
`4 * variance` (that is, lying outside mean ± 2 standard deviations), and
nothing below three clean values. -/
theorem detect_outliers_mem_aux (values : List (Option ℚ)) (i : ℕ) :
    i ∈ detect_outliers values ↔
      3 ≤ (values.filterMap id).length ∧
        ∃ v, values.get? i = some (some v) ∧
          4 * cleanVariance values < (v - cleanMean values) ^ 2 := by
  unfold detect_outliers
  by_cases h3 : (cleanEnum values).length < 3
  · rw [if_pos h3]
    rw [cleanEnum_length] at h3
    simp only [List.not_mem_nil, false_iff, not_and]
    intro hge
    omega
  · rw [if_neg h3]
    rw [cleanEnum_length] at h3
    simp only [cleanEnum_map_snd]
    constructor
    · intro hmem
      refine ⟨by omega, ?_⟩
      obtain ⟨p, hp, rfl⟩ := List.mem_map.mp hmem
      obtain ⟨hpc, hcond⟩ := List.mem_filter.mp hp
      obtain ⟨i, v⟩ := p
      refine ⟨v, mem_cleanEnum.mp hpc, ?_⟩
      simpa [cleanMean, cleanVariance] using of_decide_eq_true hcond
    · rintro ⟨-, v, hget, hcond⟩
      refine List.mem_map.mpr ⟨(i, v), List.mem_filter.mpr ⟨mem_cleanEnum.mpr hget, ?_⟩, rfl⟩
      simpa [cleanMean, cleanVariance] using hcond

theorem detect_outliers_lt_length (values : List (Option ℚ)) (i : ℕ)
    (h : i ∈ detect_outliers values) : i < values.length := by
  obtain ⟨-, v, hget, -⟩ := (detect_outliers_mem_aux values i).mp h
  exact List.get?_eq_some.mp hget |>.1

theorem sum_of_all_eq {l : List ℚ} {c : ℚ} (hall : ∀ v ∈ l, v = c) :
    l.sum = (l.length : ℚ) * c := by
  induction l with
  | nil => simp
  | cons a t ih =>
    rw [List.sum_cons, List.length_cons, hall a (List.mem_cons_self _ _),
      ih fun v hv => hall v (List.mem_cons_of_mem _ hv)]
    push_cast
    ring

theorem detect_outliers_const (values : List (Option ℚ)) (c : ℚ)
    (hall : ∀ v ∈ values.filterMap id, v = c) :
    detect_outliers values = [] := by
  rw [List.eq_nil_iff_forall_not_mem]
  intro i hi
  obtain ⟨h3, v, hget, hcond⟩ := (detect_outliers_mem_aux values i).mp hi
  have hlen : ((values.filterMap id).length : ℚ) ≠ 0 := by
    simp only [ne_eq, Nat.cast_eq_zero]
    omega
  have hmean : cleanMean values = c := by
    rw [cleanMean, sum_of_all_eq hall]
    field_simp
  have hvar : cleanVariance values = 0 := by
    rw [cleanVariance, List.sum_eq_zero, zero_div]
    intro x hx
    obtain ⟨y, hy, rfl⟩ := List.mem_map.mp hx
    rw [hall y hy, hmean]
    ring
  have hv : v = c := by
    refine hall v (List.mem_filterMap.mpr ⟨some v, ?_, rfl⟩)
    exact List.get?_mem hget
  rw [hvar, hv, hmean] at hcond
  simp at hcond

/-! Inversion lemmas: what a calculator's `some` result says about the
payload it came from. -/

theorem calculate_eps_stats_inv {e : Option EarningsPayload} {r : EpsStats}
    (h : calculate_eps_stats e = some r) :
    ∃ data, e = some data ∧
      r.annual_years = ((epsAnnualPairs data).map Prod.snd).reverse ∧
      r.annual_values = ((epsAnnualPairs data).map Prod.fst).reverse ∧
      r.ttm = epsTtm data.quarterlyEarnings ∧
      2 ≤ data.quarterlyEarnings.length := by
  match e with
  | none => simp [calculate_eps_stats] at h
  | some data =>
    refine ⟨data, rfl, ?_⟩
    rw [calculate_eps_stats] at h
    match hq : data.quarterlyEarnings with
    | [] => rw [hq] at h; simp at h
    | [q0] => rw [hq] at h; simp at h
    | q0 :: q1 :: rest =>
      rw [hq] at h
      dsimp only at h
      match hr : q0.reportedEPS with
      | none => rw [hr] at h; simp at h
      | some latest =>
        rw [hr] at h
        dsimp only at h
        simp only [Option.some.injEq] at h
        subst h
        refine ⟨rfl, rfl, by simp [hq], by simp [hq]⟩

theorem calculate_price_stats_inv {p : Option PricePayload} {r : PriceStats}
    (h : calculate_price_stats p = some r) :
    ∃ pd, p = some pd ∧
      r.current = (priceCloses pd).headD 0 ∧
      r.vs_yoy_pct = (if 12 < (priceCloses pd).length ∧ (priceCloses pd).getD 12 0 ≠ 0
        then some (pyRound 2 (((priceCloses pd).headD 0 - (priceCloses pd).getD 12 0) /
          (priceCloses pd).getD 12 0 * 100)) else none) ∧
      r.high_52w = ((priceCloses pd).take 12).max? ∧
      r.low_52w = ((priceCloses pd).take 12).min? ∧
      r.annual_years = priceSortedYears pd ∧
      r.annual_values = priceAnnualValues pd := by
  match p with
  | none => simp [calculate_price_stats] at h
  | some pd =>
    refine ⟨pd, rfl, ?_⟩
    rw [calculate_price_stats] at h
    dsimp only at h
    split at h
    · simp at h
    · split at h
      · simp at h
      · simp only [Option.some.injEq] at h
        subst h
        exact ⟨rfl, rfl, rfl, rfl, rfl, rfl⟩

theorem calculate_revenue_stats_inv {n : ℕ} {d : Option IncomePayload} {r : RevenueStats}
    (h : calculate_revenue_stats n d = some r) :
    ∃ data, d = some data ∧ data.annualReports ≠ [] ∧
      r.annual_years = ((revenueAnnualPairs data).map Prod.snd).reverse ∧
      r.annual_values = ((revenueAnnualPairs data).map Prod.fst).reverse ∧
      2 ≤ (revenueAnnualPairs data).length := by
  match d with
  | none => simp [calculate_revenue_stats] at h
  | some data =>
    refine ⟨data, rfl, ?_⟩
    rw [calculate_revenue_stats] at h
    dsimp only at h
    split at h
    · simp at h
    · next hne =>
      split at h
      · simp at h
      · next hlen =>
        simp only [Option.some.injEq] at h
        subst h
        refine ⟨hne, rfl, rfl, ?_⟩
        simp only [List.length_reverse, List.length_map] at hlen
        omega

theorem calculate_margin_stats_inv {n : ℕ} {d : Option IncomePayload} {r : MarginStats}
    (h : calculate_margin_stats n d = some r) :
    ∃ data, d = some data ∧ data.annualReports ≠ [] ∧
      r.annual_years = ((marginAnnualPairs data).map Prod.snd).reverse ∧
      r.annual_values = ((marginAnnualPairs data).map Prod.fst).reverse ∧
      2 ≤ (marginAnnualPairs data).length := by
  match d with
  | none => simp [calculate_margin_stats] at h
  | some data =>
    refine ⟨data, rfl, ?_⟩
    rw [calculate_margin_stats] at h
    dsimp only at h
    split at h
    · simp at h
    · next hne =>
      split at h
      · simp at h
      · next hlen =>
        simp only [Option.some.injEq] at h
        subst h
        refine ⟨hne, rfl, rfl, ?_⟩
        simp only [List.length_reverse, List.length_map] at hlen
        omega

theorem calculate_pe_stats_inv {popt : Option PriceStats} {eopt : Option EpsStats}
    {r : PeStats} (h : calculate_pe_stats popt eopt = some r) :
    ∃ pr er, popt = some pr ∧ eopt = some er ∧
      r.annual_years = (pePairs pr er).map Prod.fst ∧
      r.annual_values = (pePairs pr er).map Prod.snd ∧
      r.ttm_eps = er.ttm ∧
      r.trailing_pe = (match er.ttm with
        | some t =>
          if pr.current ≠ 0 ∧ t ≠ 0 ∧ 0 < t then some (pyRound 2 (pr.current / t)) else none
        | none => none) := by
  match popt, eopt with
  | none, _ => simp [calculate_pe_stats] at h
  | some pr, none => simp [calculate_pe_stats] at h
  | some pr, some er =>
    refine ⟨pr, er, rfl, rfl, ?_⟩
    rw [calculate_pe_stats] at h
    simp only [Option.some.injEq] at h
    subst h
    exact ⟨rfl, rfl, rfl, rfl⟩

/-! Claim theorems. -/

/-- C2, counterexample: `detect_outliers` does not report positions counted
among the non-`None` entries.  On `[None, 0, 0, 0, 0, 0, 6]` it returns
`[6]` — the original enumeration index of the outlying `6` — although the
filtered sequence has only six entries, so its positions are `0..5`. -/
theorem detect_outliers_filtered_index_cex :
    detect_outliers [none, some 0, some 0, some 0, some 0, some 0, some 6] = [6] ∧
      (([none, some 0, some 0, some 0, some 0, some 0, some 6] :
        List (Option ℚ)).filterMap id).length = 6 :=
  ⟨by norm_num [detect_outliers, cleanEnum, List.enum_cons, List.enumFrom_cons,
      List.filterMap_cons], by simp⟩

/-- C2, amended: for every sequence of optional numbers, `detect_outliers`
returns indices into the ORIGINAL sequence (the enumeration positions before
`None`s are discarded) of exactly those non-`None` values lying outside
mean ± 2 population standard deviations of the non-`None` entries (stated in
the equivalent squared form `(v - mean)² > 4·variance`), and returns the
empty list whenever fewer than 3 entries are non-`None`. -/
theorem detect_outliers_original_positions (values : List (Option ℚ)) :
    ((values.filterMap id).length < 3 → detect_outliers values = []) ∧
      ∀ i, i ∈ detect_outliers values ↔
        3 ≤ (values.filterMap id).length ∧
          ∃ v, values.get? i = some (some v) ∧
            4 * cleanVariance values < (v - cleanMean values) ^ 2 := by
  constructor
  · intro hlt
    rw [List.eq_nil_iff_forall_not_mem]
    intro i hi
    have h3 := ((detect_outliers_mem_aux values i).mp hi).1
    omega
  · exact detect_outliers_mem_aux values

/-- C7: for every sequence whose non-`None` entries are all equal to one
another and number at least 3, `detect_outliers` returns the empty list —
the zero-standard-deviation path never flags any index. -/
theorem detect_outliers_constant_empty (values : List (Option ℚ)) (c : ℚ)
    (_h3 : 3 ≤ (values.filterMap id).length)
    (hall : ∀ v ∈ values.filterMap id, v = c) :
    detect_outliers values = [] :=
  detect_outliers_const values c hall

/-- C7, witness: three equal entries, no outlier flagged. -/
theorem detect_outliers_constant_empty_witness :
    3 ≤ (([some 5, some 5, some 5] : List (Option ℚ)).filterMap id).length ∧
      detect_outliers [some 5, some 5, some 5] = [] :=
  ⟨by simp, detect_outliers_constant_empty [some 5, some 5, some 5] 5 (by simp) (by simp)⟩

/-- C10: every index returned by `detect_outliers` on a `None`-free list is
a valid index into that list; hence the EPS and P/E calculators' outlier
labels `annual_years[i]` for `i in detect_outliers(annual_values)` (with
`annual_values` built `None`-free and parallel to `annual_years`) never
index out of range. -/
theorem detect_outliers_indices_in_range :
    (∀ values : List (Option ℚ), (∀ x ∈ values, x ≠ none) →
        ∀ i ∈ detect_outliers values, i < values.length) ∧
      (∀ (e : Option EarningsPayload) (r : EpsStats), calculate_eps_stats e = some r →
        ∀ i ∈ detect_outliers (r.annual_values.map some), i < r.annual_years.length) ∧
      (∀ (popt : Option PriceStats) (eopt : Option EpsStats) (r : PeStats),
        calculate_pe_stats popt eopt = some r →
        ∀ i ∈ detect_outliers (r.annual_values.map some), i < r.annual_years.length) := by
  refine ⟨?_, ?_, ?_⟩
  · intro values _ i hi
    exact detect_outliers_lt_length values i hi
  · intro e r h i hi
    obtain ⟨data, -, hy, hv, -, -⟩ := calculate_eps_stats_inv h
    have hlt := detect_outliers_lt_length _ i hi
    simp only [List.length_map] at hlt
    have hlen : r.annual_years.length = r.annual_values.length := by
      rw [hy, hv]
      simp
    omega
  · intro popt eopt r h i hi
    obtain ⟨pr, er, -, -, hy, hv, -, -⟩ := calculate_pe_stats_inv h
    have hlt := detect_outliers_lt_length _ i hi
    simp only [List.length_map] at hlt
    have hlen : r.annual_years.length = r.annual_values.length := by
      rw [hy, hv]
      simp
    omega

/-- C3: `calculate_cagr` returns `None` exactly when the non-`None` entries
number fewer than 2 or the first or last non-`None` entry is ≤ 0; otherwise
it returns `((last/first)^(1/(n-1)) - 1) × 100` rounded to 2 decimal places,
where `n` is the count of non-`None` entries (the filtered length, not the
original length). -/
theorem calculate_cagr_spec (values : List (Option ℚ)) :
    (calculate_cagr values = none ↔
      (values.filterMap id).length < 2 ∨ (values.filterMap id).headD 0 ≤ 0 ∨
        (values.filterMap id).getLastD 0 ≤ 0) ∧
      ∀ _ : ¬((values.filterMap id).length < 2 ∨ (values.filterMap id).headD 0 ≤ 0 ∨
          (values.filterMap id).getLastD 0 ≤ 0),
        calculate_cagr values = some (pyRoundR 2
          ((((((values.filterMap id).getLastD 0 : ℚ) : ℝ) /
              (((values.filterMap id).headD 0 : ℚ) : ℝ)) ^
            ((1 : ℝ) / (((values.filterMap id).length - 1 : ℕ) : ℝ)) - 1) * 100)) := by
  unfold calculate_cagr
  by_cases hc : (values.filterMap id).length < 2 ∨ (values.filterMap id).headD 0 ≤ 0 ∨
      (values.filterMap id).getLastD 0 ≤ 0
  · rw [if_pos hc]
    exact ⟨iff_of_true rfl hc, fun h => absurd hc h⟩
  · rw [if_neg hc]
    exact ⟨iff_of_false (Option.some_ne_none _) hc, fun _ => rfl⟩

/-- C3, witness: `[1, 4]` has two positive clean values and a CAGR of
`(4/1)^(1/1) - 1 = 300%`; `[0, 4]` starts non-positive and yields `None`. -/
theorem calculate_cagr_spec_witness :
    calculate_cagr [some 1, some 4] = some 300 ∧ calculate_cagr [some 0, some 4] = none := by
  constructor
  · have hc : ¬((([some 1, some 4] : List (Option ℚ)).filterMap id).length < 2 ∨
        (([some 1, some 4] : List (Option ℚ)).filterMap id).headD 0 ≤ 0 ∨
        (([some 1, some 4] : List (Option ℚ)).filterMap id).getLastD 0 ≤ 0) := by
      norm_num [List.filterMap_cons]
    have h := (calculate_cagr_spec [some 1, some 4]).2 hc
    rw [h]
    congr 1
    have he : ((1 : ℝ) / (((([some 1, some 4] : List (Option ℚ)).filterMap id).length - 1 :
        ℕ) : ℝ)) = 1 := by
      norm_num [List.filterMap_cons]
    rw [he]
    have hx : (((([some 1, some 4] : List (Option ℚ)).filterMap id).getLastD 0 : ℚ) : ℝ) /
        (((([some 1, some 4] : List (Option ℚ)).filterMap id).headD 0 : ℚ) : ℝ) = 4 := by
      norm_num
    rw [hx, Real.rpow_one]
    norm_num [pyRoundR, rndHalfEvenR]
  · exact (calculate_cagr_spec [some 0, some 4]).1.mpr (by norm_num)

/-- C1, counterexample: an earnings payload whose `annualEarnings` sequence
is empty does NOT make `calculate_eps_stats` return `None`: the function
only requires at least two parseable quarterly entries, so on
`epsNoAnnualPayload` it returns a record (with an empty annual series). -/
theorem eps_none_annual_cex :
    calculate_eps_stats (some epsNoAnnualPayload) ≠ none ∧
      epsNoAnnualPayload.annualEarnings = [] := by
  constructor
  · intro h
    rw [calculate_eps_stats] at h
    simp [epsNoAnnualPayload] at h
  · rfl

/-- C1, amended: every calculator returns `None` (never raises) when its
required minimum inputs are absent — a missing payload gives `None`; the
revenue and margin calculators give `None` for every income payload whose
`annualReports` sequence is empty; the EPS calculator's required minimum is
at least two `quarterlyEarnings` entries (an empty `annualEarnings` alone
yields a record with an empty annual series, not `None`). -/
theorem calculators_none_on_missing_inputs :
    (calculate_eps_stats none = none ∧ calculate_price_stats none = none ∧
        ∀ n : ℕ, calculate_revenue_stats n none = none ∧ calculate_margin_stats n none = none) ∧
      (∀ (n : ℕ) (d : IncomePayload), d.annualReports = [] →
        calculate_revenue_stats n (some d) = none ∧
          calculate_margin_stats n (some d) = none) ∧
      ∀ e : EarningsPayload, e.quarterlyEarnings.length < 2 →
        calculate_eps_stats (some e) = none := by
  refine ⟨⟨rfl, rfl, fun n => ⟨rfl, rfl⟩⟩, ?_, ?_⟩
  · intro n d hd
    constructor
    · rw [calculate_revenue_stats]
      simp [hd]
    · rw [calculate_margin_stats]
      simp [hd]
  · intro e he
    rw [calculate_eps_stats]
    match hq : e.quarterlyEarnings with
    | [] => rfl
    | [q0] => rfl
    | q0 :: q1 :: rest =>
      rw [hq] at he
      simp only [List.length_cons] at he
      omega

/-- C1, witness: empty required sequences at concrete payloads. -/
theorem calculators_none_on_missing_inputs_witness :
    calculate_revenue_stats 2025 (some { annualReports := [], quarterlyReports := [] }) =
        none ∧
      calculate_margin_stats 2025 (some { annualReports := [], quarterlyReports := [] }) =
        none ∧
      calculate_eps_stats (some { quarterlyEarnings := [], annualEarnings := [] }) = none :=
  ⟨(calculators_none_on_missing_inputs.2.1 2025 _ rfl).1,
   (calculators_none_on_missing_inputs.2.1 2025 _ rfl).2,
   calculators_none_on_missing_inputs.2.2 _ (by decide)⟩

theorem fixedDigits_of_rnd {v : ℚ} {d : ℕ} {c : Bool} {m : ℤ}
    (hm : rndHalfEven (|v| * 10 ^ d) = m) (hv : ¬v < 0) :
    fixedDigits v d c =
      String.mk (if c then commaGroup (Nat.toDigits 10 (m.toNat / 10 ^ d))
        else Nat.toDigits 10 (m.toNat / 10 ^ d)) ++
      (if d = 0 then "" else "." ++
        String.mk (List.replicate (d - (Nat.toDigits 10 (m.toNat % 10 ^ d)).length) '0' ++
          Nat.toDigits 10 (m.toNat % 10 ^ d))) := by
  unfold fixedDigits
  rw [hm, if_neg hv]
  simp

/-- C6: `fmt_val` renders `None` as the em-dash `"—"` for every unit tag;
for unit `dollars_large` it renders magnitudes at or above `1e9` as
`$X.XXB` (two decimals), at or above `1e6` as `$X.XM` (one decimal), and
smaller magnitudes as whole dollars with no decimals; in particular
`fmt_val 1500000000 "dollars_large" = "$1.50B"`,
`fmt_val 2500000 "dollars_large" = "$2.5M"`, and
`fmt_val None "percent" = "—"`.  (The source's thresholds are `>=`
comparisons, matching the spec's "above".) -/
theorem fmt_val_spec :
    (∀ (unit : String) (dlt : Bool), fmt_val none unit dlt = "—") ∧
      fmt_val (some 1500000000) "dollars_large" false = "$1.50B" ∧
      fmt_val (some 2500000) "dollars_large" false = "$2.5M" ∧
      fmt_val none "percent" false = "—" ∧
      ∀ (v : ℚ) (dlt : Bool),
        ((1000000000 : ℚ) ≤ |v| → fmt_val (some v) "dollars_large" dlt =
          (if dlt ∧ 0 < v then "+" else "") ++ "$" ++
            fixedDigits (v / 1000000000) 2 true ++ "B") ∧
        (|v| < 1000000000 → (1000000 : ℚ) ≤ |v| → fmt_val (some v) "dollars_large" dlt =
          (if dlt ∧ 0 < v then "+" else "") ++ "$" ++
            fixedDigits (v / 1000000) 1 true ++ "M") ∧
        (|v| < 1000000 → fmt_val (some v) "dollars_large" dlt =
          (if dlt ∧ 0 < v then "+" else "") ++ "$" ++ fixedDigits v 0 true) := by
  refine ⟨fun unit dlt => rfl, ?_, ?_, rfl, ?_⟩
  · have habs : |(1500000000 : ℚ) / 1000000000| = 3 / 2 := by
      rw [abs_of_nonneg (by norm_num : (0 : ℚ) ≤ 1500000000 / 1000000000)]
      norm_num
    have hm : rndHalfEven (|(1500000000 : ℚ) / 1000000000| * 10 ^ 2) = 150 := by
      rw [habs]
      norm_num [rndHalfEven]
    simp only [fmt_val]
    rw [if_neg (by decide : ¬("dollars_large" = "dollars")), if_pos trivial,
      if_pos (by norm_num : (1000000000 : ℚ) ≤ |(1500000000 : ℚ)|),
      if_neg (by simp : ¬(false = true ∧ (0 : ℚ) < 1500000000)),
      fixedDigits_of_rnd hm (by norm_num)]
    rfl
  · have habs : |(2500000 : ℚ) / 1000000| = 5 / 2 := by
      rw [abs_of_nonneg (by norm_num : (0 : ℚ) ≤ 2500000 / 1000000)]
      norm_num
    have hm : rndHalfEven (|(2500000 : ℚ) / 1000000| * 10 ^ 1) = 25 := by
      rw [habs]
      norm_num [rndHalfEven]
    simp only [fmt_val]
    rw [if_neg (by decide : ¬("dollars_large" = "dollars")), if_pos trivial,
      if_neg (by norm_num : ¬((1000000000 : ℚ) ≤ |(2500000 : ℚ)|)),
      if_pos (by norm_num : (1000000 : ℚ) ≤ |(2500000 : ℚ)|),
      if_neg (by simp : ¬(false = true ∧ (0 : ℚ) < 2500000)),
      fixedDigits_of_rnd hm (by norm_num)]
    rfl
  · intro v dlt
    refine ⟨?_, ?_, ?_⟩
    · intro h
      simp only [fmt_val]
      rw [if_neg (by decide : ¬("dollars_large" = "dollars")), if_pos trivial, if_pos h]
    · intro h9 h6
      simp only [fmt_val]
      rw [if_neg (by decide : ¬("dollars_large" = "dollars")), if_pos trivial,
        if_neg (not_le.mpr h9), if_pos h6]
    · intro h6
      simp only [fmt_val]
      rw [if_neg (by decide : ¬("dollars_large" = "dollars")), if_pos trivial,
        if_neg (not_le.mpr (lt_of_lt_of_le h6 (by norm_num))), if_neg (not_le.mpr h6)]

/-- C5: whenever the extracted newest-first monthly closes number at least
13, `calculate_price_stats` computes `vs_yoy_pct` as
`(closes[0] - closes[12]) / closes[12] × 100` rounded to two decimals
(absent when `closes[12]` is zero), and computes `high_52w` / `low_52w` as
the max and min over `closes[0..11]` only (the 12 most recent monthly
observations). -/
theorem price_yoy_52w_spec (p : PricePayload) (r : PriceStats)
    (h : calculate_price_stats (some p) = some r)
    (h13 : 13 ≤ (priceCloses p).length) :
    r.vs_yoy_pct = (if (priceCloses p).getD 12 0 = 0 then none else
        some (pyRound 2 (((priceCloses p).getD 0 0 - (priceCloses p).getD 12 0) /
          (priceCloses p).getD 12 0 * 100))) ∧
      r.high_52w = ((priceCloses p).take 12).max? ∧
      r.low_52w = ((priceCloses p).take 12).min? := by
  obtain ⟨pd, hpd, hcur, hyoy, hhigh, hlow, -, -⟩ := calculate_price_stats_inv h
  obtain rfl : p = pd := by injection hpd
  have hne : priceCloses p ≠ [] := by
    intro hnil
    rw [hnil] at h13
    simp at h13
  have hhead : (priceCloses p).headD 0 = (priceCloses p).getD 0 0 := by
    cases hcl : priceCloses p with
    | nil => exact absurd hcl hne
    | cons a t => rfl
  constructor
  · rw [hyoy]
    by_cases hz : (priceCloses p).getD 12 0 = 0
    · rw [if_pos hz, if_neg]
      rintro ⟨-, hb⟩
      exact hb hz
    · rw [if_pos ⟨by omega, hz⟩, if_neg hz, hhead]
  · exact ⟨hhigh, hlow⟩

/-- C5, witness: on `pricePayload13` (closes 110..99 then 88, newest
first), `vs_yoy_pct = (110-88)/88·100 = 25%`, `high_52w = 110`,
`low_52w = 99`. -/
theorem price_yoy_52w_spec_witness :
    ∃ r, calculate_price_stats (some pricePayload13) = some r ∧
      13 ≤ (priceCloses pricePayload13).length ∧
      r.vs_yoy_pct = some 25 ∧ r.high_52w = some 110 ∧ r.low_52w = some 99 := by
  have hMA : priceMonthlyAll pricePayload13 =
      [(20251031, 110), (20250930, 109), (20250831, 108), (20250731, 107), (20250630, 106),
       (20250531, 105), (20250430, 104), (20250331, 103), (20250228, 102), (20250131, 101),
       (20241231, 100), (20241130, 99), (20241031, 88)] := by
    show ([(20251031, (110 : ℚ)), (20250930, 109), (20250831, 108), (20250731, 107),
        (20250630, 106), (20250531, 105), (20250430, 104), (20250331, 103), (20250228, 102),
        (20250131, 101), (20241231, 100), (20241130, 99),
        (20241031, 88)].mergeSort fun a b => decide (b.1 ≤ a.1)) = _
    exact List.mergeSort_of_sorted (by decide)
  have hc : priceCloses pricePayload13 =
      [110, 109, 108, 107, 106, 105, 104, 103, 102, 101, 100, 99, 88] := by
    unfold priceCloses priceMonthly
    rw [hMA]
    rfl
  have h13 : 13 ≤ (priceCloses pricePayload13).length := by
    rw [hc]
    decide
  have hsome : ∃ r, calculate_price_stats (some pricePayload13) = some r := by
    rw [calculate_price_stats]
    dsimp only
    rw [if_neg (by decide : ¬(pricePayload13.series = [])), if_neg (by rw [hMA]; decide)]
    exact ⟨_, rfl⟩
  obtain ⟨r, hr⟩ := hsome
  have hspec := price_yoy_52w_spec pricePayload13 r hr h13
  refine ⟨r, hr, h13, ?_, ?_, ?_⟩
  · rw [hspec.1, hc]
    rw [if_neg (by norm_num [List.getD_cons_succ, List.getD_cons_zero])]
    simp only [List.getD_cons_succ, List.getD_cons_zero]
    congr 1
    norm_num [pyRound, rndHalfEven]
  · rw [hspec.2.1, hc]
    simp only [List.take, List.max?]
    norm_num [max_def]
  · rw [hspec.2.2, hc]
    simp only [List.take, List.min?]
    norm_num [min_def]

theorem dlookup_eq_some_imp {d : List (ℕ × ℚ)} {k : ℕ} {v : ℚ}
    (h : dlookup d k = some v) : k ∈ dictKeys d := by
  unfold dlookup at h
  obtain ⟨q, hfind, hqv⟩ := Option.map_eq_some'.mp h
  have hk : q.1 = k := by simpa using List.find?_some hfind
  exact hk ▸ List.mem_map.mpr ⟨q, List.mem_of_find?_eq_some hfind, rfl⟩

theorem dlookup_isSome_of_mem {d : List (ℕ × ℚ)} {k : ℕ} (h : k ∈ dictKeys d) :
    ∃ v, dlookup d k = some v := by
  unfold dictKeys at h
  obtain ⟨q, hq, rfl⟩ := List.mem_map.mp h
  have : ((d.find? fun p => p.1 = q.1).isSome) = true :=
    List.find?_isSome.mpr ⟨q, hq, by simp⟩
  obtain ⟨w, hw⟩ := Option.isSome_iff_exists.mp this
  exact ⟨w.2, by unfold dlookup; rw [hw]; rfl⟩

/-- C4: for every pair of price and EPS stats records, the historical annual
P/E series of `calculate_pe_stats` contains exactly the years present in
both annual dictionaries whose annual EPS is strictly positive, each paired
with `round(price / eps, 2)`; the trailing P/E is absent unless the TTM EPS
is present and strictly positive; and the TTM EPS of `calculate_eps_stats`
is absent unless at least four quarters exist and all four most recent
quarterly EPS values are present. -/
theorem pe_stats_spec :
    (∀ (pr : PriceStats) (er : EpsStats) (r : PeStats),
        calculate_pe_stats (some pr) (some er) = some r →
        ∀ (y : ℕ) (v : ℚ),
          (y, v) ∈ r.annual_years.zip r.annual_values ↔
            ∃ price eps,
              dlookup (pyDict (pr.annual_years.zip pr.annual_values)) y = some price ∧
              dlookup (pyDict (er.annual_years.zip er.annual_values)) y = some eps ∧
              0 < eps ∧ v = pyRound 2 (price / eps)) ∧
      (∀ (pr : PriceStats) (er : EpsStats) (r : PeStats),
        calculate_pe_stats (some pr) (some er) = some r →
        ∀ t, r.trailing_pe = some t → ∃ s, er.ttm = some s ∧ 0 < s) ∧
      (∀ (e : Option EarningsPayload) (r : EpsStats), calculate_eps_stats e = some r →
        r.ttm ≠ none → ∃ data, e = some data ∧ 4 ≤ data.quarterlyEarnings.length ∧
          ∀ q ∈ data.quarterlyEarnings.take 4, q.reportedEPS ≠ none) := by
  refine ⟨?_, ?_, ?_⟩
  · intro pr er r h y v
    obtain ⟨pr2, er2, h1, h2, hy, hv, -, -⟩ := calculate_pe_stats_inv h
    obtain rfl : pr = pr2 := by injection h1
    obtain rfl : er = er2 := by injection h2
    rw [hy, hv, show (List.map Prod.fst (pePairs pr er)).zip
      (List.map Prod.snd (pePairs pr er)) = pePairs pr er from
      (List.zip_of_prod rfl rfl).symm]
    unfold pePairs
    rw [List.mem_filterMap]
    constructor
    · rintro ⟨a, ha, hfa⟩
      match hp : dlookup (pyDict (pr.annual_years.zip pr.annual_values)) a,
        he : dlookup (pyDict (er.annual_years.zip er.annual_values)) a with
      | none, _ => rw [hp] at hfa; simp at hfa
      | some price, none => rw [hp, he] at hfa; simp at hfa
      | some price, some eps =>
        rw [hp, he] at hfa
        dsimp only at hfa
        by_cases hpos : 0 < eps
        · rw [if_pos hpos] at hfa
          obtain ⟨rfl, rfl⟩ := Prod.mk.injEq .. ▸ Option.some.inj hfa
          exact ⟨price, eps, hp, he, hpos, rfl⟩
        · rw [if_neg hpos] at hfa
          exact absurd hfa (by simp)
    · rintro ⟨price, eps, hp, he, hpos, rfl⟩
      refine ⟨y, ?_, by rw [hp, he]; dsimp only; rw [if_pos hpos]⟩
      unfold peCommonYears
      rw [List.mem_mergeSort, List.mem_filter]
      refine ⟨dlookup_eq_some_imp hp, ?_⟩
      simpa [List.elem_iff] using dlookup_eq_some_imp he
  · intro pr er r h t ht
    obtain ⟨pr2, er2, h1, h2, -, -, -, htr⟩ := calculate_pe_stats_inv h
    obtain rfl : pr = pr2 := by injection h1
    obtain rfl : er = er2 := by injection h2
    rw [htr] at ht
    match hs : er.ttm with
    | none => rw [hs] at ht; simp at ht
    | some s =>
      rw [hs] at ht
      dsimp only at ht
      by_cases hc : pr.current ≠ 0 ∧ s ≠ 0 ∧ 0 < s
      · exact ⟨s, rfl, hc.2.2⟩
      · rw [if_neg hc] at ht
        simp at ht
  · intro e r h httm
    obtain ⟨data, rfl, -, -, httm2, -⟩ := calculate_eps_stats_inv h
    rw [httm2] at httm
    unfold epsTtm at httm
    by_cases h4 : 4 ≤ data.quarterlyEarnings.length
    · rw [if_pos h4] at httm
      refine ⟨data, rfl, h4, ?_⟩
      by_cases hall : ((data.quarterlyEarnings.take 4).map fun q => q.reportedEPS).all
          Option.isSome
      · intro q hq
        have := List.all_eq_true.mp hall _ (List.mem_map.mpr ⟨q, hq, rfl⟩)
        exact Option.isSome_iff_ne_none.mp this
      · rw [if_neg hall] at httm
        exact absurd rfl httm
    · rw [if_neg h4] at httm
      exact absurd rfl httm

/-- C4, witness (the spec's worked example): price annual
`{2021: 150, 2022: 130}` joined with EPS annual `{2021: 5, 2022: -1}`
yields the P/E series `[(2021, 30)]` only, and with no TTM EPS the
trailing P/E is absent. -/
theorem pe_stats_spec_witness :
    ∃ r, calculate_pe_stats (some prC4) (some erC4) = some r ∧
      r.annual_years = [2021] ∧ r.annual_values = [30] ∧ r.trailing_pe = none := by
  have hcommon : peCommonYears prC4 erC4 = [2021, 2022] := by
    show (((dictKeys (pyDict (prC4.annual_years.zip prC4.annual_values))).filter fun y =>
      (dictKeys (pyDict (erC4.annual_years.zip erC4.annual_values))).contains y).mergeSort
        fun a b => decide (a ≤ b)) = _
    rw [show ((dictKeys (pyDict (prC4.annual_years.zip prC4.annual_values))).filter fun y =>
      (dictKeys (pyDict (erC4.annual_years.zip erC4.annual_values))).contains y) =
        [2021, 2022] from rfl]
    exact List.mergeSort_of_sorted (by decide)
  have hpairs : pePairs prC4 erC4 = [(2021, pyRound 2 (150 / 5))] := by
    unfold pePairs
    rw [hcommon]
    rfl
  obtain ⟨r, hr⟩ : ∃ r, calculate_pe_stats (some prC4) (some erC4) = some r :=
    ⟨_, by rw [calculate_pe_stats]⟩
  obtain ⟨pr2, er2, h1, h2, hy, hv, -, htr⟩ := calculate_pe_stats_inv hr
  obtain rfl : prC4 = pr2 := by injection h1
  obtain rfl : erC4 = er2 := by injection h2
  refine ⟨r, hr, ?_, ?_, ?_⟩
  · rw [hy, hpairs]
    rfl
  · rw [hv, hpairs]
    show [pyRound 2 (150 / 5)] = [30]
    norm_num [pyRound, rndHalfEven]
  · rw [htr]
    rfl

/-! Helper lemmas for the annual-series invariants (lengths, order, cap). -/

theorem dictInsert_length (d : List (ℕ × ℚ)) (k : ℕ) (v : ℚ) :
    (dictInsert d k v).length ≤ d.length + 1 := by
  unfold dictInsert
  split
  · rw [List.length_map]
    omega
  · rw [List.length_append]
    simp

theorem pyDict_foldl_length (l : List (ℕ × ℚ)) :
    ∀ acc : List (ℕ × ℚ),
      (l.foldl (fun d p => dictInsert d p.1 p.2) acc).length ≤ acc.length + l.length := by
  induction l with
  | nil => intro acc; simp
  | cons a t ih =>
    intro acc
    rw [List.foldl_cons]
    calc (t.foldl (fun d p => dictInsert d p.1 p.2) (dictInsert acc a.1 a.2)).length
        ≤ (dictInsert acc a.1 a.2).length + t.length := ih _
      _ ≤ acc.length + 1 + t.length := by
          have := dictInsert_length acc a.1 a.2
          omega
      _ = acc.length + (a :: t).length := by simp; omega

theorem pyDict_length (l : List (ℕ × ℚ)) : (pyDict l).length ≤ l.length := by
  have := pyDict_foldl_length l []
  simpa using this

/-- Years extracted by a date-respecting pair function from a newest-first
list come out oldest-first after the source's `reverse`. -/
theorem pairs_sorted_aux {α : Type} (l : List α) (dateOf : α → Option ℕ)
    (g : α → Option (ℚ × ℕ))
    (hg : ∀ e p, g e = some p → ∃ d ∈ dateOf e, p.2 = yearOf d)
    (hsorted : l.Pairwise fun e1 e2 => ∀ d1 ∈ dateOf e1, ∀ d2 ∈ dateOf e2, d2 ≤ d1) :
    List.Sorted (· ≤ ·) ((((l.take YEARS_TO_ANALYZE).filterMap g).map Prod.snd).reverse) := by
  rw [List.Sorted, List.pairwise_reverse, List.pairwise_map, List.pairwise_filterMap]
  have htake := hsorted.sublist (List.take_sublist YEARS_TO_ANALYZE l)
  refine htake.imp ?_
  intro e1 e2 h12 p1 hp1 p2 hp2
  obtain ⟨d1, hd1, hy1⟩ := hg e1 p1 hp1
  obtain ⟨d2, hd2, hy2⟩ := hg e2 p2 hp2
  rw [hy1, hy2]
  exact Nat.div_le_div_right (h12 d1 hd1 d2 hd2)

theorem priceSortedYears_sorted (pd : PricePayload) :
    List.Sorted (· ≤ ·) (priceSortedYears pd) := by
  unfold priceSortedYears
  exact List.Pairwise.sublist (List.drop_sublist _ _) (List.sorted_mergeSort' _)

theorem priceSortedYears_le5 (pd : PricePayload) : (priceSortedYears pd).length ≤ 5 := by
  unfold priceSortedYears
  rw [List.length_drop, List.length_mergeSort]
  unfold YEARS_TO_ANALYZE
  omega

/-- C8: every record returned by the five metric calculators satisfies
`len(annual_years) = len(annual_values)`, with `annual_years` in
chronological (oldest-to-newest, weakly increasing) order and of length at
most 5.  For the EPS, revenue and margin calculators the chronological
order rests on the payload arriving newest-first (the input shape the spec
states for the API's annual sequences), phrased as a `Pairwise` hypothesis
on the fiscal dates; the price and P/E calculators sort explicitly, so
their parts need no such hypothesis. -/
theorem annual_series_invariant :
    (∀ (p : Option PricePayload) (r : PriceStats), calculate_price_stats p = some r →
        r.annual_years.length = r.annual_values.length ∧ r.annual_years.length ≤ 5 ∧
          List.Sorted (· ≤ ·) r.annual_years) ∧
      (∀ (data : EarningsPayload) (r : EpsStats),
        data.annualEarnings.Pairwise (fun e1 e2 => ∀ d1 ∈ e1.fiscalDateEnding,
          ∀ d2 ∈ e2.fiscalDateEnding, d2 ≤ d1) →
        calculate_eps_stats (some data) = some r →
        r.annual_years.length = r.annual_values.length ∧ r.annual_years.length ≤ 5 ∧
          List.Sorted (· ≤ ·) r.annual_years) ∧
      (∀ (n : ℕ) (data : IncomePayload) (r : RevenueStats),
        data.annualReports.Pairwise (fun e1 e2 => ∀ d1 ∈ e1.fiscalDateEnding,
          ∀ d2 ∈ e2.fiscalDateEnding, d2 ≤ d1) →
        calculate_revenue_stats n (some data) = some r →
        r.annual_years.length = r.annual_values.length ∧ r.annual_years.length ≤ 5 ∧
          List.Sorted (· ≤ ·) r.annual_years) ∧
      (∀ (n : ℕ) (data : IncomePayload) (r : MarginStats),
        data.annualReports.Pairwise (fun e1 e2 => ∀ d1 ∈ e1.fiscalDateEnding,
          ∀ d2 ∈ e2.fiscalDateEnding, d2 ≤ d1) →
        calculate_margin_stats n (some data) = some r →
        r.annual_years.length = r.annual_values.length ∧ r.annual_years.length ≤ 5 ∧
          List.Sorted (· ≤ ·) r.annual_years) ∧
      ∀ (p : Option PricePayload) (e : Option EarningsPayload)
        (rp : PriceStats) (re : EpsStats) (rpe : PeStats),
        calculate_price_stats p = some rp → calculate_eps_stats e = some re →
        calculate_pe_stats (some rp) (some re) = some rpe →
        rpe.annual_years.length = rpe.annual_values.length ∧ rpe.annual_years.length ≤ 5 ∧
          List.Sorted (· ≤ ·) rpe.annual_years := by
  have hgEps : ∀ (e : AnnualEarning) (p : ℚ × ℕ),
      (match e.reportedEPS, e.fiscalDateEnding with
        | some v, some dt => some (v, yearOf dt)
        | _, _ => none) = some p → ∃ d ∈ e.fiscalDateEnding, p.2 = yearOf d := by
    intro e p hp
    match he : e.reportedEPS, hd : e.fiscalDateEnding with
    | none, none => rw [he, hd] at hp; simp at hp
    | none, some d => rw [he, hd] at hp; simp at hp
    | some v, none => rw [he, hd] at hp; simp at hp
    | some v, some d =>
      rw [he, hd] at hp
      dsimp only at hp
      obtain rfl := Option.some.inj hp
      exact ⟨d, by simp [hd], rfl⟩
  have hgRev : ∀ (e : IncomeReport) (p : ℚ × ℕ),
      (match e.totalRevenue, e.fiscalDateEnding with
        | some v, some dt => some (v, yearOf dt)
        | _, _ => none) = some p → ∃ d ∈ e.fiscalDateEnding, p.2 = yearOf d := by
    intro e p hp
    match he : e.totalRevenue, hd : e.fiscalDateEnding with
    | none, none => rw [he, hd] at hp; simp at hp
    | none, some d => rw [he, hd] at hp; simp at hp
    | some v, none => rw [he, hd] at hp; simp at hp
    | some v, some d =>
      rw [he, hd] at hp
      dsimp only at hp
      obtain rfl := Option.some.inj hp
      exact ⟨d, by simp [hd], rfl⟩
  have hgMar : ∀ (e : IncomeReport) (p : ℚ × ℕ),
      (match pct e.operatingIncome e.totalRevenue, e.fiscalDateEnding with
        | some m, some dt => some (m, yearOf dt)
        | _, _ => none) = some p → ∃ d ∈ e.fiscalDateEnding, p.2 = yearOf d := by
    intro e p hp
    match he : pct e.operatingIncome e.totalRevenue, hd : e.fiscalDateEnding with
    | none, none => rw [he, hd] at hp; simp at hp
    | none, some d => rw [he, hd] at hp; simp at hp
    | some v, none => rw [he, hd] at hp; simp at hp
    | some v, some d =>
      rw [he, hd] at hp
      dsimp only at hp
      obtain rfl := Option.some.inj hp
      exact ⟨d, by simp [hd], rfl⟩
  refine ⟨?_, ?_, ?_, ?_, ?_⟩
  · intro p r h
    obtain ⟨pd, -, -, -, -, -, hy, hv⟩ := calculate_price_stats_inv h
    refine ⟨?_, ?_, ?_⟩
    · rw [hy, hv]
      unfold priceAnnualValues
      rw [List.length_map]
    · rw [hy]
      exact priceSortedYears_le5 pd
    · rw [hy]
      exact priceSortedYears_sorted pd
  · intro data r hsorted h
    obtain ⟨data2, hd2, hy, hv, -, -⟩ := calculate_eps_stats_inv h
    obtain rfl : data = data2 := by injection hd2
    refine ⟨?_, ?_, ?_⟩
    · rw [hy, hv]
      simp
    · rw [hy]
      simp only [List.length_reverse, List.length_map]
      calc (epsAnnualPairs data).length
          ≤ (data.annualEarnings.take YEARS_TO_ANALYZE).length :=
            List.length_filterMap_le _ _
        _ ≤ 5 := by
            rw [List.length_take]
            unfold YEARS_TO_ANALYZE
            omega
    · rw [hy]
      exact pairs_sorted_aux data.annualEarnings (fun e => e.fiscalDateEnding) _ hgEps hsorted
  · intro n data r hsorted h
    obtain ⟨data2, hd2, -, hy, hv, -⟩ := calculate_revenue_stats_inv h
    obtain rfl : data = data2 := by injection hd2
    refine ⟨?_, ?_, ?_⟩
    · rw [hy, hv]
      simp
    · rw [hy]
      simp only [List.length_reverse, List.length_map]
      calc (revenueAnnualPairs data).length
          ≤ (data.annualReports.take YEARS_TO_ANALYZE).length :=
            List.length_filterMap_le _ _
        _ ≤ 5 := by
            rw [List.length_take]
            unfold YEARS_TO_ANALYZE
            omega
    · rw [hy]
      exact pairs_sorted_aux data.annualReports (fun e => e.fiscalDateEnding) _ hgRev hsorted
  · intro n data r hsorted h
    obtain ⟨data2, hd2, -, hy, hv, -⟩ := calculate_margin_stats_inv h
    obtain rfl : data = data2 := by injection hd2
    refine ⟨?_, ?_, ?_⟩
    · rw [hy, hv]
      simp
    · rw [hy]
      simp only [List.length_reverse, List.length_map]
      calc (marginAnnualPairs data).length
          ≤ (data.annualReports.take YEARS_TO_ANALYZE).length :=
            List.length_filterMap_le _ _
        _ ≤ 5 := by
            rw [List.length_take]
            unfold YEARS_TO_ANALYZE
            omega
    · rw [hy]
      exact pairs_sorted_aux data.annualReports (fun e => e.fiscalDateEnding) _ hgMar hsorted
  · intro p e rp re rpe hp he h
    obtain ⟨pr2, er2, h1, h2, hy, hv, -, -⟩ := calculate_pe_stats_inv h
    obtain rfl : rp = pr2 := by injection h1
    obtain rfl : re = er2 := by injection h2
    have hf : ∀ (y : ℕ) (b : ℕ × ℚ),
        (match dlookup (pyDict (rp.annual_years.zip rp.annual_values)) y,
          dlookup (pyDict (re.annual_years.zip re.annual_values)) y with
          | some price, some eps =>
            if 0 < eps then some (y, pyRound 2 (price / eps)) else none
          | _, _ => none) = some b → b.1 = y := by
      intro y b hb
      match h1 : dlookup (pyDict (rp.annual_years.zip rp.annual_values)) y,
        h2 : dlookup (pyDict (re.annual_years.zip re.annual_values)) y with
      | none, none => rw [h1, h2] at hb; simp at hb
      | none, some w => rw [h1, h2] at hb; simp at hb
      | some w, none => rw [h1, h2] at hb; simp at hb
      | some w, some w2 =>
        rw [h1, h2] at hb
        dsimp only at hb
        by_cases hpos : 0 < w2
        · rw [if_pos hpos] at hb
          obtain rfl := Option.some.inj hb
          rfl
        · rw [if_neg hpos] at hb
          simp at hb
    refine ⟨?_, ?_, ?_⟩
    · rw [hy, hv]
      simp
    · rw [hy]
      rw [List.length_map]
      obtain ⟨pd, -, -, -, -, -, hpy, -⟩ := calculate_price_stats_inv hp
      calc (pePairs rp re).length
          ≤ (peCommonYears rp re).length := by
            unfold pePairs
            exact List.length_filterMap_le _ _
        _ ≤ (dictKeys (pyDict (rp.annual_years.zip rp.annual_values))).length := by
            unfold peCommonYears
            rw [List.length_mergeSort]
            exact List.length_filter_le _ _
        _ ≤ (rp.annual_years.zip rp.annual_values).length := by
            unfold dictKeys
            rw [List.length_map]
            exact pyDict_length _
        _ ≤ rp.annual_years.length := by
            rw [List.length_zip]
            omega
        _ ≤ 5 := by
            rw [hpy]
            exact priceSortedYears_le5 pd
    · rw [hy]
      unfold pePairs
      rw [List.Sorted, List.pairwise_map, List.pairwise_filterMap]
      have hcs : List.Sorted (· ≤ ·) (peCommonYears rp re) := by
        unfold peCommonYears
        exact List.sorted_mergeSort' _
      refine hcs.imp ?_
      intro y1 y2 h12 b1 hb1 b2 hb2
      rw [hf y1 b1 hb1, hf y2 b2 hb2]
      exact h12

/-- C8, witness: a newest-first earnings payload whose record carries the
chronological annual series `2023, 2024` with values `3, 4`. -/
theorem annual_series_invariant_witness :
    ∃ r, calculate_eps_stats (some epsPayloadC8) = some r ∧
      r.annual_years = [2023, 2024] ∧ r.annual_values = [3, 4] ∧
      List.Sorted (· ≤ ·) r.annual_years ∧
      r.annual_years.length = r.annual_values.length := by
  have hpair : epsPayloadC8.annualEarnings.Pairwise (fun e1 e2 =>
      ∀ d1 ∈ e1.fiscalDateEnding, ∀ d2 ∈ e2.fiscalDateEnding, d2 ≤ d1) := by
    decide
  obtain ⟨r, hr⟩ : ∃ r, calculate_eps_stats (some epsPayloadC8) = some r := ⟨_, rfl⟩
  have hinv := annual_series_invariant.2.1 epsPayloadC8 r hpair hr
  obtain ⟨data2, hd2, hy, hv, -, -⟩ := calculate_eps_stats_inv hr
  obtain rfl : epsPayloadC8 = data2 := by injection hd2
  refine ⟨r, hr, ?_, ?_, hinv.2.2, hinv.1⟩
  · rw [hy]
    rfl
  · rw [hv]
    rfl

/-- C9: the statistics-and-report pipeline is deterministic — two runs over
identical payloads, the same ticker list, the same run date (`date_str`,
`nowYear`) and the same (functional) `tabulate` renderer produce equal
records and an identical Markdown string.  In this exact-arithmetic
embedding every stage is a pure function, so determinism is definitional;
the substantive half of the claim is the rounding contract: every value
`pct` or `round(x, 2)` produces is an integer multiple of `1/100`, i.e.
already rounded to exactly two decimals at the point of computation. -/
theorem pipeline_deterministic_and_rounded :
    (∀ (tab : List (List String) → List String → String) (date_str : String) (nowYear : ℕ)
        (tickers : List String) (data : List (String × TickerData)),
        runScreening tab date_str nowYear tickers data =
            runScreening tab date_str nowYear tickers data ∧
          ∀ td : TickerData, runTicker nowYear td = runTicker nowYear td) ∧
      (∀ num denom v, pct num denom = some v → ∃ k : ℤ, v = (k : ℚ) / 100) ∧
      ∀ q : ℚ, ∃ k : ℤ, pyRound 2 q = (k : ℚ) / 100 := by
  refine ⟨fun tab ds ny tk d => ⟨rfl, fun td => rfl⟩, ?_, ?_⟩
  · intro num denom v h
    unfold pct at h
    match hs : safe_divide num denom with
    | none => rw [hs] at h; simp at h
    | some r =>
      rw [hs] at h
      dsimp only at h
      obtain rfl := Option.some.inj h
      refine ⟨rndHalfEven (r * 100 * 10 ^ 2), ?_⟩
      unfold pyRound
      norm_num
  · intro q
    exact ⟨rndHalfEven (q * 10 ^ 2), by unfold pyRound; norm_num⟩
